import Mathlib

/-!
Verification of the ConsultEase faculty desk unit firmware
(`faculty_desk_unit_FIXED.ino`), shallowly embedded in Lean 4.

The embedding follows the source file function by function.  Configuration
constants come from `config_realtime_optimized.h`.  Debug printing, TFT
drawing and the LED notification flags are not modelled; every publish of a
presence update is modelled as an emitted `PresenceEvent`, and every call of
`mqttClient.publish` in the delivery layer is modelled as an emitted
`MqttAttempt`.  `unsigned long` timestamp subtraction is modelled as
arithmetic modulo 2^32.
-/

namespace ConsultEase

/-- Constants from `config_realtime_optimized.h` and the firmware source. -/
def BLE_GRACE_PERIOD_MS : Nat := 20000

def BLE_RECONNECT_MAX_ATTEMPTS : Nat := 6

def BLE_SIGNAL_STRENGTH_THRESHOLD : Int := -80

def CONFIRM_SCANS : Nat := 2

def CONFIRM_ABSENCE_SCANS : Nat := 3

def MQTT_MAX_PACKET_SIZE : Nat := 1024

def MAX_MESSAGE_LENGTH : Nat := 512

def MAX_CONSULTATION_QUEUE_SIZE : Nat := 10

/-- 2^32, the modulus of `unsigned long` arithmetic on the ESP32. -/
def U32 : Nat := 4294967296

/-- `now - start` on `unsigned long` values (wrap-around subtraction). -/
def sub32 (now start : Nat) : Nat := (now + (U32 - start % U32)) % U32

/-- State of `BooleanPresenceDetector` (lines 1153-1171 of the firmware). -/
structure PDState where
  currentPresence : Bool
  lastKnownPresence : Bool
  lastDetectionTime : Nat
  lastStateChange : Nat
  gracePeriodStartTime : Nat
  inGracePeriod : Bool
  gracePeriodAttempts : Nat
  consecutiveDetections : Nat
  consecutiveMisses : Nat
  deriving DecidableEq, Repr

/-- The detector's initial state (all fields zero-initialised). -/
def initPD : PDState :=
  { currentPresence := false, lastKnownPresence := false,
    lastDetectionTime := 0, lastStateChange := 0, gracePeriodStartTime := 0,
    inGracePeriod := false, gracePeriodAttempts := 0,
    consecutiveDetections := 0, consecutiveMisses := 0 }

/-- One `publishPresenceUpdate` call, modelled by the `present` flag and
`status` string it publishes. -/
structure PresenceEvent where
  present : Bool
  status : String
  deriving DecidableEq, Repr

/-- `BooleanPresenceDetector::getPresence` (lines 1287-1293). -/
def getPresence (s : PDState) : Bool :=
  if s.inGracePeriod then s.lastKnownPresence else s.currentPresence

/-- `BooleanPresenceDetector::getStatusString` (lines 1295-1301). -/
def getStatusString (s : PDState) : String :=
  if s.inGracePeriod then
    (if s.lastKnownPresence then "AVAILABLE" else "AWAY")
  else
    (if s.currentPresence then "AVAILABLE" else "AWAY")

/-- The presence payload built by `publishPresenceUpdate` (lines 2275-2310),
restricted to the `present` and `status` fields the claims are about.  One
event models one `publishPresenceUpdate` invocation; the firmware mirrors
the same payload to a legacy status topic in the same call. -/
def publishPresenceUpdate (s : PDState) : PresenceEvent :=
  { present := getPresence s, status := getStatusString s }

/-- `BooleanPresenceDetector::updatePresenceStatus` (lines 1267-1283). -/
def updatePresenceStatus (s : PDState) (newPresence : Bool) (now : Nat) :
    PDState × List PresenceEvent :=
  if newPresence ≠ s.currentPresence then
    let s1 := { s with currentPresence := newPresence, lastStateChange := now,
                       consecutiveDetections := 0, consecutiveMisses := 0 }
    (s1, [publishPresenceUpdate s1])
  else (s, [])

/-- `BooleanPresenceDetector::endGracePeriod` (lines 1251-1265). -/
def endGracePeriod (s : PDState) (reconnected : Bool) (now : Nat) :
    PDState × List PresenceEvent :=
  let s1 := { s with inGracePeriod := false, gracePeriodAttempts := 0 }
  if reconnected then (s1, [])
  else updatePresenceStatus s1 false now

/-- `BooleanPresenceDetector::startGracePeriod` (lines 1222-1233). -/
def startGracePeriod (s : PDState) (now : Nat) : PDState :=
  { s with inGracePeriod := true, gracePeriodStartTime := now,
           gracePeriodAttempts := 0, lastKnownPresence := s.currentPresence }

/-- `BooleanPresenceDetector::updateGracePeriod` (lines 1235-1249). -/
def updateGracePeriod (s : PDState) (now : Nat) : PDState × List PresenceEvent :=
  let s1 := { s with gracePeriodAttempts := s.gracePeriodAttempts + 1 }
  let elapsed := sub32 now s1.gracePeriodStartTime
  if elapsed ≥ BLE_GRACE_PERIOD_MS ∨ s1.gracePeriodAttempts ≥ BLE_RECONNECT_MAX_ATTEMPTS then
    endGracePeriod s1 false now
  else (s1, [])

/-- `BooleanPresenceDetector::checkBeacon` (lines 1173-1219). -/
def checkBeacon (s : PDState) (beaconFound : Bool) (rssi : Int) (now : Nat) :
    PDState × List PresenceEvent :=
  if beaconFound then
    let s1 := { s with lastDetectionTime := now,
                       consecutiveDetections := s.consecutiveDetections + 1,
                       consecutiveMisses := 0 }
    if rssi ≠ 0 ∧ rssi < BLE_SIGNAL_STRENGTH_THRESHOLD then (s1, [])
    else
      let p := if s1.inGracePeriod then endGracePeriod s1 true now else (s1, [])
      let s2 := p.1
      if s2.consecutiveDetections ≥ CONFIRM_SCANS ∧ s2.currentPresence = false then
        let q := updatePresenceStatus s2 true now
        (q.1, p.2 ++ q.2)
      else (s2, p.2)
  else
    let s1 := { s with consecutiveMisses := s.consecutiveMisses + 1,
                       consecutiveDetections := 0 }
    if s1.currentPresence = true ∧ s1.consecutiveMisses ≥ CONFIRM_ABSENCE_SCANS then
      if s1.inGracePeriod = false then (startGracePeriod s1 now, [])
      else updateGracePeriod s1 now
    else if s1.currentPresence = false then
      ({ s1 with inGracePeriod := false }, [])
    else (s1, [])

/-- A scan forwarded to the detector by the BLE scan callback (line 1472),
which always calls `checkBeacon(beaconFound)` with the default `rssi = 0`. -/
def feedScan (s : PDState) (beaconFound : Bool) (now : Nat) :
    PDState × List PresenceEvent :=
  checkBeacon s beaconFound 0 now

/-- Feed a sequence of timed scan results to the detector, collecting every
published presence event in order. -/
def runScans : PDState → List (Bool × Nat) → PDState × List PresenceEvent
  | s, [] => (s, [])
  | s, (b, t) :: rest =>
    let p := feedScan s b t
    let q := runScans p.1 rest
    (q.1, p.2 ++ q.2)

/-! ### String helpers

Arduino `String::indexOf`, `substring`, `trim` and `endsWith`, modelled over
the character list of the string.  `indexOf` returns `none` where the C++
method returns `-1`. -/

/-- `pat` occurs at the start of `l`. -/
def matchesAt : List Char → List Char → Bool
  | [], _ => true
  | _ :: _, [] => false
  | p :: ps, c :: cs => p = c && matchesAt ps cs

/-- First index `≥ i` (counting from the given accumulator) at which `pat`
occurs in the list. -/
def findSubAux (pat : List Char) : List Char → Nat → Option Nat
  | [], i => if matchesAt pat [] then some i else none
  | l@(_ :: rest), i => if matchesAt pat l then some i else findSubAux pat rest (i + 1)

/-- `String::indexOf(pat)`. -/
def strIndexOf (s pat : String) : Option Nat :=
  findSubAux pat.toList s.toList 0

/-- `String::indexOf(pat, start)`. -/
def strIndexOfFrom (s pat : String) (start : Nat) : Option Nat :=
  (findSubAux pat.toList (s.toList.drop start) 0).map (· + start)

/-- `String::substring(a, b)` (characters in `[a, b)`). -/
def strSubstrTo (s : String) (a b : Nat) : String :=
  String.mk ((s.toList.take b).drop a)

/-- `String::substring(a)`. -/
def strSubstrFrom (s : String) (a : Nat) : String :=
  String.mk (s.toList.drop a)

/-- Whitespace recognised by `String::trim` (C `isspace`). -/
def isWSChar (c : Char) : Bool :=
  c = ' ' || c = '\t' || c = '\n' || c = '\x0b' || c = '\x0c' || c = '\r'

/-- `String::trim`. -/
def strTrim (s : String) : String :=
  String.mk (((s.toList.dropWhile isWSChar).reverse.dropWhile isWSChar).reverse)

/-- `String::endsWith`. -/
def strEndsWith (s suffix : String) : Bool :=
  matchesAt suffix.toList.reverse s.toList.reverse

/-! ### Consultation message queue (lines 35-43 and 154-262, 621-702) -/

/-- `ConsultationMessage` (lines 35-43). -/
structure ConsultationMessage where
  content : String
  consultationId : String
  studentName : String
  studentId : String
  actualMessage : String
  timestamp : Nat
  isValid : Bool
  deriving DecidableEq, Repr

/-- A default-constructed `ConsultationMessage` (empty strings, not valid). -/
def emptyConsultationMessage : ConsultationMessage :=
  { content := "", consultationId := "", studentName := "", studentId := "",
    actualMessage := "", timestamp := 0, isValid := false }

/-- `parseConsultationMessage` (lines 197-231). -/
def parseConsultationMessage (messageContent consultationId : String) :
    ConsultationMessage :=
  let base := { emptyConsultationMessage with
                content := messageContent, consultationId := consultationId }
  match strIndexOf messageContent "From:", strIndexOf messageContent "(SID:",
        strIndexOf messageContent "): " with
  | some fromIndex, some sidIndex, some messageIndex =>
    let studentName := strTrim (strSubstrTo messageContent (fromIndex + 5) sidIndex)
    let sidStart := sidIndex + 5
    let studentId :=
      match strIndexOfFrom messageContent ")" sidStart with
      | some sidEnd => strTrim (strSubstrTo messageContent sidStart sidEnd)
      | none => ""
    let actualMessage := strTrim (strSubstrFrom messageContent (messageIndex + 3))
    { base with studentName := studentName, studentId := studentId,
                actualMessage := actualMessage }
  | _, _, _ =>
    { base with studentName := "Unknown Student", studentId := "N/A",
                actualMessage := messageContent }

/-- The global consultation-queue and display state (lines 117-121, 129,
154-160).  The TFT drawing and LED code acting on it is not modelled. -/
structure CState where
  consultationQueue : List ConsultationMessage
  consultationQueueHead : Nat
  consultationQueueTail : Nat
  consultationQueueSize : Nat
  currentMessageDisplayed : Bool
  messageDisplayed : Bool
  currentMessage : String
  g_receivedConsultationId : String
  messageDisplayStart : Nat
  deriving DecidableEq, Repr

/-- The logical FIFO content of the ring buffer: the `consultationQueueSize`
entries starting at `consultationQueueHead` (capped at the 10 physical
slots, as every loop in the source is). -/
def logicalEntries (st : CState) : List ConsultationMessage :=
  (List.range (min st.consultationQueueSize MAX_CONSULTATION_QUEUE_SIZE)).map
    (fun i => st.consultationQueue.getD
      ((st.consultationQueueHead + i) % MAX_CONSULTATION_QUEUE_SIZE)
      emptyConsultationMessage)

/-- `addConsultationToQueue` (lines 233-262).  Returns the C++ return value
together with the new state; the `updateMessageLED` call is not modelled. -/
def addConsultationToQueue (st : CState) (now : Nat)
    (messageContent consultationId : String) : Bool × CState :=
  let newMessage := parseConsultationMessage messageContent consultationId
  let st1 :=
    if st.consultationQueueSize ≥ MAX_CONSULTATION_QUEUE_SIZE then
      { st with
        consultationQueueHead :=
          (st.consultationQueueHead + 1) % MAX_CONSULTATION_QUEUE_SIZE,
        consultationQueueSize := st.consultationQueueSize - 1 }
    else st
  let stored := { newMessage with timestamp := now, isValid := true }
  (true,
   { st1 with
     consultationQueue := st1.consultationQueue.set st1.consultationQueueTail stored,
     consultationQueueTail :=
       (st1.consultationQueueTail + 1) % MAX_CONSULTATION_QUEUE_SIZE,
     consultationQueueSize := st1.consultationQueueSize + 1 })

/-- `displayQueuedConsultation` (lines 285-291 of its state effects; the
remaining lines only draw on the TFT). -/
def displayQueuedConsultation (st : CState) (now : Nat)
    (msg : ConsultationMessage) : CState :=
  { st with currentMessage := msg.content,
            g_receivedConsultationId := msg.consultationId,
            messageDisplayed := true, messageDisplayStart := now,
            currentMessageDisplayed := true }

/-- Invalidation of a removed entry (lines 642-646): `isValid`,
`consultationId`, `content`, `studentName` and `actualMessage` are cleared,
`studentId` and `timestamp` are left untouched. -/
def clearRemovedMsg (m : ConsultationMessage) : ConsultationMessage :=
  { m with isValid := false, consultationId := "", content := "",
           studentName := "", actualMessage := "" }

/-- The marking loop of `removeConsultationFromQueue` (lines 629-651),
processing the first `n` logical queue positions.  The source's
`for i in 0..9 / break at i ≥ size` loop is this with
`n = min size 10`.  Returns the new state and `removedCount`. -/
def markUpTo (target : String) (st : CState) : Nat → CState × Nat
  | 0 => (st, 0)
  | n + 1 =>
    let p := markUpTo target st n
    let queueIndex := (p.1.consultationQueueHead + n) % MAX_CONSULTATION_QUEUE_SIZE
    let m := p.1.consultationQueue.getD queueIndex emptyConsultationMessage
    if m.isValid = true ∧ m.consultationId = target then
      ({ p.1 with consultationQueue :=
           p.1.consultationQueue.set queueIndex (clearRemovedMsg m) },
       p.2 + 1)
    else p

/-- Clearing of a slot by `compactConsultationQueue` (lines 686-690). -/
def clearCompactMsg (m : ConsultationMessage) : ConsultationMessage :=
  { m with isValid := false, content := "", consultationId := "" }

/-- `compactConsultationQueue` (lines 668-702): collect the valid logical
entries in order, clear every slot, copy the survivors back to the front and
reset `head/tail/size`. -/
def compactConsultationQueue (st : CState) : CState :=
  let tempQueue := (logicalEntries st).filter (fun m => m.isValid)
  let newSize := tempQueue.length
  let cleared := st.consultationQueue.map clearCompactMsg
  { st with consultationQueue := tempQueue ++ cleared.drop newSize,
            consultationQueueHead := 0,
            consultationQueueTail := newSize,
            consultationQueueSize := newSize }

/-- `removeConsultationFromQueue` (lines 621-666): mark matching entries
invalid, then compact if anything was found.  Returns the `found` flag. -/
def removeConsultationFromQueue (st : CState) (target : String) : Bool × CState :=
  let p := markUpTo target st (min st.consultationQueueSize MAX_CONSULTATION_QUEUE_SIZE)
  if p.2 > 0 then (true, compactConsultationQueue p.1) else (false, p.1)

/-- `onMqttMessage` (lines 2206-2273).  The payload is truncated to
`MAX_MESSAGE_LENGTH`; a message on a `/cancellations` topic is handed to
`handleCancellationNotification`, passed in here as `cancelHandler`; for a
consultation message the consultation ID is parsed from the `CID:` token and
the message is dropped when it carries no `CID:` or the professor is away. -/
def onMqttMessage (cancelHandler : CState → String → CState)
    (pd : PDState) (st : CState) (now : Nat) (topic payload : String) : CState :=
  let messageContent := String.mk (payload.toList.take MAX_MESSAGE_LENGTH)
  if strEndsWith topic "/cancellations" then cancelHandler st messageContent
  else
    match strIndexOf messageContent "CID:" with
    | none => st
    | some cidIndex =>
      let cidStart := cidIndex + 4
      let parsedConsultationId :=
        match strIndexOfFrom messageContent " " cidStart with
        | some cidEnd => strSubstrTo messageContent cidStart cidEnd
        | none => strSubstrFrom messageContent cidStart
      if getPresence pd = false then st
      else if st.currentMessageDisplayed then
        (addConsultationToQueue st now messageContent parsedConsultationId).2
      else
        displayQueuedConsultation st now
          (parseConsultationMessage messageContent parsedConsultationId)

/-! ### Offline publish queue (lines 79-99, 799-1004) -/

/-- The transport readouts `mqttClient.connected()` and `mqttClient.state()`
cross-checked by `isMqttReallyConnected`. -/
structure MqttConn where
  connectedFlag : Bool
  state : Int
  deriving DecidableEq, Repr

/-- `isMqttReallyConnected` (lines 79-99). -/
def isMqttReallyConnected (conn : MqttConn) : Bool :=
  conn.connectedFlag && conn.state == 0

/-- `SimpleMessage` (lines 799-805): an envelope of the offline queue; the
`char[64]`/`char[512]` buffers are the character lists written by `strncpy`
with null termination. -/
structure SimpleMessage where
  topic : List Char
  payload : List Char
  timestamp : Nat
  retry_count : Nat
  is_response : Bool
  deriving DecidableEq, Repr

/-- One `mqttClient.publish(topic, payload, retained)` call, with its
result. -/
structure MqttAttempt where
  topic : List Char
  payload : List Char
  retained : Bool
  ok : Bool
  deriving DecidableEq, Repr

/-- `queueMessage` (lines 822-844): when the queue already holds 10
envelopes, shift out the oldest; then append the topic truncated to 63 and
the payload truncated to 511 characters, with `retry_count = 0`. -/
def queueMessage (now : Nat) (q : List SimpleMessage)
    (topic payload : List Char) (isResponse : Bool) : Bool × List SimpleMessage :=
  let q1 := if q.length ≥ 10 then (q.drop 1).take 9 else q
  (true, q1 ++ [{ topic := topic.take 63, payload := payload.take 511,
                  timestamp := now, retry_count := 0, is_response := isResponse }])

/-- `publishWithQueue` (lines 942-1004).  `ok` is the broker's answer to the
direct `mqttClient.publish` call, when one is made; the emitted list records
that call.  Debug printing and the `mqttConnected := false` reconnection
hint are not modelled. -/
def publishWithQueue (conn : MqttConn) (ok : Bool) (now : Nat)
    (q : List SimpleMessage) (topic payload : List Char) (isResponse : Bool) :
    Bool × List SimpleMessage × List MqttAttempt :=
  if payload.length > MQTT_MAX_PACKET_SIZE - 50 then (false, q, [])
  else if isMqttReallyConnected conn then
    let useRetained := !isResponse
    if ok then (true, q, [{ topic := topic, payload := payload,
                            retained := useRetained, ok := true }])
    else
      let p := queueMessage now q topic payload isResponse
      (p.1, p.2, [{ topic := topic, payload := payload,
                    retained := useRetained, ok := false }])
  else
    let p := queueMessage now q topic payload isResponse
    (p.1, p.2, [])

/-- `processQueuedMessages` (lines 846-910): when verified connected and the
queue is non-empty, publish the head envelope with `retained = false`; on
success remove it, on failure increment its `retry_count` and drop it once
that count exceeds 3.  The `mqttClient.loop` pumping and the
`mqttConnected := false` reconnection hint on failure are not modelled. -/
def processQueuedMessages (conn : MqttConn) (ok : Bool)
    (q : List SimpleMessage) : Bool × List SimpleMessage × List MqttAttempt :=
  if isMqttReallyConnected conn = false || q.isEmpty then (false, q, [])
  else
    match q with
    | [] => (false, q, [])
    | m :: rest =>
      if ok then
        (true, rest, [{ topic := m.topic, payload := m.payload,
                        retained := false, ok := true }])
      else
        let m1 := { m with retry_count := m.retry_count + 1 }
        if m1.retry_count > 3 then
          (false, rest, [{ topic := m.topic, payload := m.payload,
                           retained := false, ok := false }])
        else
          (false, m1 :: rest, [{ topic := m.topic, payload := m.payload,
                                 retained := false, ok := false }])

/-- The drain loop of `updateOfflineQueue` (lines 927-933): up to `n`
`processQueuedMessages` calls, stopping at the first failure.  `oks` gives
the broker's answer to each successive publish attempt. -/
def drainLoop (conn : MqttConn) : Nat → List Bool → List SimpleMessage →
    List SimpleMessage × List MqttAttempt
  | 0, _, q => (q, [])
  | n + 1, oks, q =>
    let p := processQueuedMessages conn (oks.headD false) q
    if p.1 then
      let r := drainLoop conn n oks.tail p.2.1
      (r.1, p.2.2 ++ r.2)
    else (p.2.1, p.2.2)

/-- `updateOfflineQueue` (lines 912-939): one drain tick, attempting up to
`min 3 queueCount` envelopes while `systemOnline`. -/
def updateOfflineQueue (conn : MqttConn) (wifiConnected : Bool)
    (oks : List Bool) (q : List SimpleMessage) :
    List SimpleMessage × List MqttAttempt :=
  let systemOnline := wifiConnected && isMqttReallyConnected conn
  if systemOnline && decide (0 < q.length) then
    drainLoop conn (min 3 q.length) oks q
  else (q, [])

/-- A sequence of drain ticks, with one outcome list per tick. -/
def runTicks (conn : MqttConn) (wifiConnected : Bool) :
    List (List Bool) → List SimpleMessage → List SimpleMessage × List MqttAttempt
  | [], q => (q, [])
  | oks :: rest, q =>
    let p := updateOfflineQueue conn wifiConnected oks q
    let r := runTicks conn wifiConnected rest p.1
    (r.1, p.2 ++ r.2)

/-! ### Specification-side helper definitions -/

/-- Feeding these scan outcomes from an away state whose consecutive-detection
counter is `d` never accumulates `CONFIRM_SCANS` consecutive detections. -/
def noConfirm : Nat → List Bool → Bool
  | _, [] => true
  | d, b :: bs =>
    if b then decide (d + 1 < CONFIRM_SCANS) && noConfirm (d + 1) bs
    else noConfirm 0 bs

/-- The consecutive-detection counter after feeding the scan outcomes,
starting from counter value `d`. -/
def dAfter : Nat → List Bool → Nat
  | d, [] => d
  | d, b :: bs => if b then dAfter (d + 1) bs else dAfter 0 bs

/-- The detector states at which each scan of the list arrives (i.e. all
proper prefixes' final states). -/
def midStates : PDState → List (Bool × Nat) → List PDState
  | _, [] => []
  | s, (b, t) :: rest => s :: midStates (feedScan s b t).1 rest

/-- Well-formedness of the consultation ring buffer: ten physical slots,
consistent `head/tail/size` bookkeeping, and every logical entry valid. -/
def wfQueue (st : CState) : Prop :=
  st.consultationQueue.length = 10 ∧
  st.consultationQueueSize ≤ 10 ∧
  st.consultationQueueHead < 10 ∧
  st.consultationQueueTail =
    (st.consultationQueueHead + st.consultationQueueSize) % 10 ∧
  ∀ m ∈ logicalEntries st, m.isValid = true

/-- The match predicate of the removal loop (line 634-635). -/
def matchedB (target : String) (m : ConsultationMessage) : Bool :=
  m.isValid && m.consultationId == target

/-- "Removing by ID followed by compaction": the marking loop of
`removeConsultationFromQueue` over all logical entries, then
`compactConsultationQueue`.  `removeConsultationFromQueue` performs exactly
this whenever at least one entry matches (and skips the compaction when
nothing matched). -/
def removeByIdThenCompact (st : CState) (target : String) : CState :=
  compactConsultationQueue
    (markUpTo target st (min st.consultationQueueSize MAX_CONSULTATION_QUEUE_SIZE)).1

/-- A valid queued consultation with the given ID (witness material). -/
def wMsg (cid : String) : ConsultationMessage :=
  { emptyConsultationMessage with
    content := "m", consultationId := cid, isValid := true }

/-- A well-formed wrapped queue state with three entries starting at slot 1
(witness material). -/
def wQueueState : CState :=
  { consultationQueue :=
      [emptyConsultationMessage, wMsg "7", wMsg "9", wMsg "7",
       emptyConsultationMessage, emptyConsultationMessage,
       emptyConsultationMessage, emptyConsultationMessage,
       emptyConsultationMessage, emptyConsultationMessage],
    consultationQueueHead := 1, consultationQueueTail := 4,
    consultationQueueSize := 3, currentMessageDisplayed := false,
    messageDisplayed := false, currentMessage := "",
    g_receivedConsultationId := "", messageDisplayStart := 0 }

/-- Scan trace of the C3 counterexample: two detections confirm PRESENT,
three misses (at 2000, 4000, 6000 ms) start the grace period, and six
further misses every 2000 ms exhaust `BLE_RECONNECT_MAX_ATTEMPTS`. -/
def c3Trace : List (Bool × Nat) :=
  [(true, 0), (true, 0), (false, 2000), (false, 4000), (false, 6000),
   (false, 8000), (false, 10000), (false, 12000), (false, 14000),
   (false, 16000), (false, 18000)]

/-- A 975-character payload: longer than the 512-byte envelope buffer yet
admitted by the pre-publish size check (limit 1024 − 50 = 974 is exceeded
here, so this one is rejected outright). -/
def bigPayload : List Char := List.replicate 975 'a'

/-- A status (non-response) envelope sitting in the offline queue. -/
def msgT : SimpleMessage :=
  { topic := "t".toList, payload := "p".toList, timestamp := 0,
    retry_count := 0, is_response := false }

/-! ### Lemmas: runs of scans -/

theorem runScans_append (s : PDState) (l1 l2 : List (Bool × Nat)) :
    runScans s (l1 ++ l2) =
      ((runScans (runScans s l1).1 l2).1,
       (runScans s l1).2 ++ (runScans (runScans s l1).1 l2).2) := by
  induction l1 generalizing s with
  | nil => simp [runScans]
  | cons x rest ih =>
    obtain ⟨b, t⟩ := x
    simp [runScans, ih]

theorem midStates_append (s : PDState) (l1 l2 : List (Bool × Nat)) :
    midStates s (l1 ++ l2) =
      midStates s l1 ++ midStates (runScans s l1).1 l2 := by
  induction l1 generalizing s with
  | nil => simp [midStates, runScans]
  | cons x rest ih =>
    obtain ⟨b, t⟩ := x
    simp [midStates, runScans, ih]

/-! ### Lemmas: single-scan behaviour of `checkBeacon` -/

theorem feedScan_true_noconfirm (s : PDState) (t : Nat)
    (hg : s.inGracePeriod = false)
    (hd : s.consecutiveDetections + 1 < CONFIRM_SCANS ∨ s.currentPresence = true) :
    feedScan s true t =
      ({ s with lastDetectionTime := t,
                consecutiveDetections := s.consecutiveDetections + 1,
                consecutiveMisses := 0 }, []) := by
  rcases hd with hd | hd <;>
    simp [feedScan, checkBeacon, hg, hd, updatePresenceStatus]

theorem feedScan_true_confirm (s : PDState) (t : Nat)
    (hg : s.inGracePeriod = false) (hc : s.currentPresence = false)
    (hd : s.consecutiveDetections + 1 ≥ CONFIRM_SCANS) :
    feedScan s true t =
      ({ s with lastDetectionTime := t, consecutiveDetections := 0,
                consecutiveMisses := 0, currentPresence := true,
                lastStateChange := t },
       [{ present := true, status := "AVAILABLE" }]) := by
  simp [feedScan, checkBeacon, hg, hc, hd, updatePresenceStatus,
        publishPresenceUpdate, getPresence, getStatusString]

theorem feedScan_true_graceCancel (s : PDState) (t : Nat)
    (hg : s.inGracePeriod = true) (hc : s.currentPresence = true) :
    feedScan s true t =
      ({ s with lastDetectionTime := t,
                consecutiveDetections := s.consecutiveDetections + 1,
                consecutiveMisses := 0, inGracePeriod := false,
                gracePeriodAttempts := 0 }, []) := by
  simp [feedScan, checkBeacon, hg, hc, endGracePeriod, updatePresenceStatus]

theorem feedScan_false_away (s : PDState) (t : Nat)
    (hc : s.currentPresence = false) :
    feedScan s false t =
      ({ s with consecutiveMisses := s.consecutiveMisses + 1,
                consecutiveDetections := 0, inGracePeriod := false }, []) := by
  simp [feedScan, checkBeacon, hc]

theorem feedScan_false_fewMisses (s : PDState) (t : Nat)
    (hc : s.currentPresence = true)
    (hm : s.consecutiveMisses + 1 < CONFIRM_ABSENCE_SCANS) :
    feedScan s false t =
      ({ s with consecutiveMisses := s.consecutiveMisses + 1,
                consecutiveDetections := 0 }, []) := by
  simp [feedScan, checkBeacon, hc, Nat.not_le_of_lt hm]

theorem feedScan_false_enterGrace (s : PDState) (t : Nat)
    (hc : s.currentPresence = true) (hg : s.inGracePeriod = false)
    (hm : s.consecutiveMisses + 1 ≥ CONFIRM_ABSENCE_SCANS) :
    feedScan s false t =
      ({ s with consecutiveMisses := s.consecutiveMisses + 1,
                consecutiveDetections := 0, inGracePeriod := true,
                gracePeriodStartTime := t, gracePeriodAttempts := 0,
                lastKnownPresence := true }, []) := by
  simp [feedScan, checkBeacon, hc, hg, hm, startGracePeriod]

theorem feedScan_false_graceKeep (s : PDState) (t : Nat)
    (hc : s.currentPresence = true) (hg : s.inGracePeriod = true)
    (hm : s.consecutiveMisses + 1 ≥ CONFIRM_ABSENCE_SCANS)
    (he : sub32 t s.gracePeriodStartTime < BLE_GRACE_PERIOD_MS)
    (ha : s.gracePeriodAttempts + 1 < BLE_RECONNECT_MAX_ATTEMPTS) :
    feedScan s false t =
      ({ s with consecutiveMisses := s.consecutiveMisses + 1,
                consecutiveDetections := 0,
                gracePeriodAttempts := s.gracePeriodAttempts + 1 }, []) := by
  simp [feedScan, checkBeacon, hc, hg, hm, updateGracePeriod,
        Nat.not_le_of_lt he, Nat.not_le_of_lt ha]

theorem feedScan_false_graceFire (s : PDState) (t : Nat)
    (hc : s.currentPresence = true) (hg : s.inGracePeriod = true)
    (hm : s.consecutiveMisses + 1 ≥ CONFIRM_ABSENCE_SCANS)
    (hfire : sub32 t s.gracePeriodStartTime ≥ BLE_GRACE_PERIOD_MS ∨
             s.gracePeriodAttempts + 1 ≥ BLE_RECONNECT_MAX_ATTEMPTS) :
    feedScan s false t =
      ({ s with consecutiveMisses := 0, consecutiveDetections := 0,
                inGracePeriod := false, gracePeriodAttempts := 0,
                currentPresence := false, lastStateChange := t },
       [{ present := false, status := "AWAY" }]) := by
  rcases hfire with hfire | hfire <;>
    simp [feedScan, checkBeacon, hc, hg, hm, updateGracePeriod, hfire,
          endGracePeriod, updatePresenceStatus, publishPresenceUpdate,
          getPresence, getStatusString]

/-! ### Lemmas: multi-scan runs of the detector -/

theorem noConfirm_append (d : Nat) (xs ys : List Bool) :
    noConfirm d (xs ++ ys) = (noConfirm d xs && noConfirm (dAfter d xs) ys) := by
  induction xs generalizing d with
  | nil => simp [noConfirm, dAfter]
  | cons b bs ih =>
    cases b <;> simp [noConfirm, dAfter, ih, Bool.and_assoc]

theorem noConfirm_of_allFalse (d : Nat) (bs : List Bool)
    (h : ∀ b ∈ bs, b = false) : noConfirm d bs = true := by
  induction bs generalizing d with
  | nil => rfl
  | cons b rest ih =>
    have hb : b = false := h b (by simp)
    subst hb
    simpa [noConfirm] using ih 0 (fun x hx => h x (by simp [hx]))

/-- While no `CONFIRM_SCANS` run of detections accumulates, an away detector
stays away, publishes nothing, and its detection counter tracks `dAfter`. -/
theorem runScans_away (l : List (Bool × Nat)) (s : PDState)
    (hc : s.currentPresence = false) (hg : s.inGracePeriod = false)
    (hn : noConfirm s.consecutiveDetections (l.map Prod.fst) = true) :
    (runScans s l).2 = [] ∧
    (runScans s l).1.currentPresence = false ∧
    (runScans s l).1.inGracePeriod = false ∧
    (runScans s l).1.consecutiveDetections =
      dAfter s.consecutiveDetections (l.map Prod.fst) := by
  induction l generalizing s with
  | nil => simp [runScans, dAfter, hc, hg]
  | cons x rest ih =>
    obtain ⟨b, t⟩ := x
    cases b with
    | true =>
      simp only [List.map_cons, noConfirm, if_true, Bool.and_eq_true,
        decide_eq_true_eq] at hn
      have hstep := feedScan_true_noconfirm s t hg (Or.inl hn.1)
      have := ih { s with lastDetectionTime := t,
                          consecutiveDetections := s.consecutiveDetections + 1,
                          consecutiveMisses := 0 } hc hg hn.2
      simpa [runScans, hstep, dAfter] using this
    | false =>
      simp only [List.map_cons, noConfirm] at hn
      have hstep := feedScan_false_away s t hc
      have := ih { s with consecutiveMisses := s.consecutiveMisses + 1,
                          consecutiveDetections := 0, inGracePeriod := false }
        hc rfl hn
      simpa [runScans, hstep, dAfter] using this

/-- During a grace period whose misses all stay inside the time window and
the attempt budget, the detector keeps its grace state, publishes nothing,
and reports presence `true` throughout. -/
theorem runScans_graceMisses (gts : List Nat) (s : PDState)
    (hc : s.currentPresence = true) (hk : s.lastKnownPresence = true)
    (hg : s.inGracePeriod = true) (hm : s.consecutiveMisses ≥ CONFIRM_ABSENCE_SCANS)
    (ha : s.gracePeriodAttempts + gts.length < BLE_RECONNECT_MAX_ATTEMPTS)
    (ht : ∀ t ∈ gts, sub32 t s.gracePeriodStartTime < BLE_GRACE_PERIOD_MS) :
    (runScans s (gts.map (fun t => (false, t)))).2 = [] ∧
    (runScans s (gts.map (fun t => (false, t)))).1.currentPresence = true ∧
    (runScans s (gts.map (fun t => (false, t)))).1.lastKnownPresence = true ∧
    (runScans s (gts.map (fun t => (false, t)))).1.inGracePeriod = true ∧
    (runScans s (gts.map (fun t => (false, t)))).1.consecutiveMisses ≥ CONFIRM_ABSENCE_SCANS ∧
    (runScans s (gts.map (fun t => (false, t)))).1.gracePeriodStartTime =
      s.gracePeriodStartTime ∧
    (runScans s (gts.map (fun t => (false, t)))).1.gracePeriodAttempts =
      s.gracePeriodAttempts + gts.length ∧
    (∀ x ∈ midStates s (gts.map (fun t => (false, t))), getPresence x = true) := by
  induction gts generalizing s with
  | nil => simp [runScans, midStates, hc, hk, hg, hm]
  | cons t ts ih =>
    have hm1 : s.consecutiveMisses + 1 ≥ CONFIRM_ABSENCE_SCANS := by
      unfold CONFIRM_ABSENCE_SCANS at hm ⊢; omega
    have he : sub32 t s.gracePeriodStartTime < BLE_GRACE_PERIOD_MS :=
      ht t (by simp)
    have ha1 : s.gracePeriodAttempts + 1 < BLE_RECONNECT_MAX_ATTEMPTS := by
      simp only [List.length_cons] at ha
      unfold BLE_RECONNECT_MAX_ATTEMPTS at ha ⊢
      omega
    have hstep := feedScan_false_graceKeep s t hc hg hm1 he ha1
    set s1 : PDState :=
      { s with consecutiveMisses := s.consecutiveMisses + 1,
               consecutiveDetections := 0,
               gracePeriodAttempts := s.gracePeriodAttempts + 1 } with hs1
    have ih1 := ih s1 hc hk hg hm1
      (by simp only [List.length_cons] at ha; simp only [hs1]; omega)
      (by intro u hu; simpa [hs1] using ht u (by simp [hu]))
    have h1 : (runScans s ((t :: ts).map (fun u => (false, u)))).1 =
        (runScans s1 (ts.map (fun u => (false, u)))).1 := by
      simp [runScans, hstep]
    have h2 : (runScans s ((t :: ts).map (fun u => (false, u)))).2 =
        (runScans s1 (ts.map (fun u => (false, u)))).2 := by
      simp [runScans, hstep]
    have h3 : midStates s ((t :: ts).map (fun u => (false, u))) =
        s :: midStates s1 (ts.map (fun u => (false, u))) := by
      simp [midStates, hstep]
    refine ⟨by rw [h2]; exact ih1.1, by rw [h1]; exact ih1.2.1,
      by rw [h1]; exact ih1.2.2.1, by rw [h1]; exact ih1.2.2.2.1,
      by rw [h1]; exact ih1.2.2.2.2.1,
      by rw [h1]; simpa [hs1] using ih1.2.2.2.2.2.1,
      by rw [h1]; rw [ih1.2.2.2.2.2.2.1]; simp [hs1]; omega, ?_⟩
    intro x hx
    rw [h3] at hx
    rcases List.mem_cons.mp hx with hx1 | hx1
    · simp [hx1, getPresence, hg, hk]
    · exact ih1.2.2.2.2.2.2.2 x hx1

/-! ### Lemmas: per-scan publish discipline -/

theorem checkBeacon_true_weak (s : PDState) (r : Int) (t : Nat)
    (hr : r ≠ 0 ∧ r < BLE_SIGNAL_STRENGTH_THRESHOLD) :
    checkBeacon s true r t =
      ({ s with lastDetectionTime := t,
                consecutiveDetections := s.consecutiveDetections + 1,
                consecutiveMisses := 0 }, []) := by
  simp [checkBeacon, hr]

theorem checkBeacon_true_strongEq (s : PDState) (r : Int) (t : Nat)
    (hr : ¬(r ≠ 0 ∧ r < BLE_SIGNAL_STRENGTH_THRESHOLD)) :
    checkBeacon s true r t = feedScan s true t := by
  simp only [checkBeacon, feedScan, if_neg hr]
  simp [BLE_SIGNAL_STRENGTH_THRESHOLD]

theorem checkBeacon_miss_eq (s : PDState) (r : Int) (t : Nat) :
    checkBeacon s false r t = feedScan s false t := rfl

theorem checkBeacon_discipline (s : PDState) (b : Bool) (r : Int) (t : Nat) :
    ((checkBeacon s b r t).1.currentPresence = s.currentPresence ∧
     (checkBeacon s b r t).2 = [])
  ∨ ((checkBeacon s b r t).1.currentPresence = (!s.currentPresence) ∧
     (checkBeacon s b r t).2 =
       [{ present := (checkBeacon s b r t).1.currentPresence,
          status := if (checkBeacon s b r t).1.currentPresence = true
                    then "AVAILABLE" else "AWAY" }]) := by
  cases b with
  | false =>
    rw [checkBeacon_miss_eq]
    by_cases hc : s.currentPresence = true
    · by_cases hm : s.consecutiveMisses + 1 ≥ CONFIRM_ABSENCE_SCANS
      · by_cases hg : s.inGracePeriod = true
        · by_cases hfire : sub32 t s.gracePeriodStartTime ≥ BLE_GRACE_PERIOD_MS ∨
              s.gracePeriodAttempts + 1 ≥ BLE_RECONNECT_MAX_ATTEMPTS
          · rw [feedScan_false_graceFire s t hc hg hm hfire]
            right; simp [hc]
          · push_neg at hfire
            rw [feedScan_false_graceKeep s t hc hg hm hfire.1 hfire.2]
            left; simp [hc]
        · rw [feedScan_false_enterGrace s t hc (by simpa using hg) hm]
          left; simp [hc]
      · rw [feedScan_false_fewMisses s t hc (by omega)]
        left; simp [hc]
    · rw [feedScan_false_away s t (by simpa using hc)]
      left; simp
  | true =>
    by_cases hr : r ≠ 0 ∧ r < BLE_SIGNAL_STRENGTH_THRESHOLD
    · rw [checkBeacon_true_weak s r t hr]; left; simp
    · rw [checkBeacon_true_strongEq s r t hr]
      by_cases hg : s.inGracePeriod = true
      · by_cases hc : s.currentPresence = true
        · rw [feedScan_true_graceCancel s t hg hc]; left; simp
        · -- unreachable in real runs: in grace while away
          by_cases hd : s.consecutiveDetections + 1 ≥ CONFIRM_SCANS
          · have : feedScan s true t =
              ({ s with lastDetectionTime := t, consecutiveDetections := 0,
                        consecutiveMisses := 0, inGracePeriod := false,
                        gracePeriodAttempts := 0, currentPresence := true,
                        lastStateChange := t },
               [{ present := true, status := "AVAILABLE" }]) := by
              simp [feedScan, checkBeacon, hg, hc, hd, endGracePeriod,
                updatePresenceStatus, publishPresenceUpdate, getPresence,
                getStatusString, eq_false_of_ne_true hc]
            rw [this]; right; simp [eq_false_of_ne_true hc]
          · have : feedScan s true t =
              ({ s with lastDetectionTime := t,
                        consecutiveDetections := s.consecutiveDetections + 1,
                        consecutiveMisses := 0, inGracePeriod := false,
                        gracePeriodAttempts := 0 }, []) := by
              simp [feedScan, checkBeacon, hg, hc, hd, endGracePeriod,
                updatePresenceStatus]
            rw [this]; left; simp
      · by_cases hc : s.currentPresence = true
        · rw [feedScan_true_noconfirm s t (by simpa using hg) (Or.inr hc)]
          left; simp
        · by_cases hd : s.consecutiveDetections + 1 ≥ CONFIRM_SCANS
          · rw [feedScan_true_confirm s t (by simpa using hg)
              (eq_false_of_ne_true hc) hd]
            right; simp [eq_false_of_ne_true hc]
          · rw [feedScan_true_noconfirm s t (by simpa using hg) (Or.inl (by omega))]
            left; simp

/-! ### Claim C1 -/

/-- Claim C1: from the AWAY initial state the detector transitions to
PRESENT, publishing one presence change, exactly at the scan completing
`CONFIRM_SCANS = 2` consecutive detections; while no such run accumulates it
stays AWAY and publishes nothing; and in general every scan publishes at
most one event, precisely when the confirmed presence flips. -/
theorem C1_confirm_scans_single_publish :
    (∀ (s : PDState) (b : Bool) (r : Int) (t : Nat),
      ((checkBeacon s b r t).1.currentPresence = s.currentPresence ∧
       (checkBeacon s b r t).2 = [])
    ∨ ((checkBeacon s b r t).1.currentPresence = (!s.currentPresence) ∧
       (checkBeacon s b r t).2 =
         [{ present := (checkBeacon s b r t).1.currentPresence,
            status := if (checkBeacon s b r t).1.currentPresence = true
                      then "AVAILABLE" else "AWAY" }]))
  ∧ (∀ l : List (Bool × Nat), noConfirm 0 (l.map Prod.fst) = true →
      (runScans initPD l).2 = [] ∧ (runScans initPD l).1.currentPresence = false)
  ∧ (∀ (p : List (Bool × Nat)) (tx ty : Nat),
      noConfirm 0 (p.map Prod.fst ++ [true]) = true →
      (runScans initPD (p ++ [(true, tx), (true, ty)])).2 =
        [{ present := true, status := "AVAILABLE" }]) := by
  refine ⟨checkBeacon_discipline, ?_, ?_⟩
  · intro l h
    have := runScans_away l initPD rfl rfl h
    exact ⟨this.1, this.2.1⟩
  · intro p tx ty h
    rw [noConfirm_append] at h
    simp only [Bool.and_eq_true] at h
    have hd0 : dAfter 0 (p.map Prod.fst) + 1 < 2 := by
      have h2 := h.2
      simpa [noConfirm, CONFIRM_SCANS] using h2
    obtain ⟨hev, hcur, hgr, hdet⟩ := runScans_away p initPD rfl rfl h.1
    have hd1 : (runScans initPD p).1.consecutiveDetections = 0 := by
      rw [hdet]
      show dAfter 0 (p.map Prod.fst) = 0
      omega
    have e1 := feedScan_true_noconfirm (runScans initPD p).1 tx hgr
      (Or.inl (by rw [hd1]; simp [CONFIRM_SCANS]))
    have e2 := feedScan_true_confirm
      { (runScans initPD p).1 with
        lastDetectionTime := tx,
        consecutiveDetections := (runScans initPD p).1.consecutiveDetections + 1,
        consecutiveMisses := 0 } ty hgr hcur
      (by show (runScans initPD p).1.consecutiveDetections + 1 + 1 ≥ CONFIRM_SCANS
          unfold CONFIRM_SCANS; omega)
    rw [runScans_append, hev]
    simp [runScans, e1, e2]

theorem C1_confirm_scans_single_publish_witness :
    (runScans initPD [(false, 1), (true, 2), (true, 3)]).2 =
      [{ present := true, status := "AVAILABLE" }] := by
  exact C1_confirm_scans_single_publish.2.2 [(false, 1)] 2 3 (by decide)

/-! ### Claims C2 and C3 -/

/-- Claim C2: a PRESENT detector that accrues the misses needed to enter the
grace period and then sees a single detection inside the grace window
returns to PRESENT with the grace period cancelled, reports presence `true`
at every point of the sequence, and publishes nothing — in particular no
"AWAY" status. -/
theorem C2_grace_cancel_no_publish
    (s : PDState) (t1 t2 t3 td : Nat) (gts : List Nat)
    (hc : s.currentPresence = true) (hg : s.inGracePeriod = false)
    (hm : s.consecutiveMisses = 0)
    (hlen : gts.length ≤ BLE_RECONNECT_MAX_ATTEMPTS - 1)
    (ht : ∀ t ∈ gts, sub32 t t3 < BLE_GRACE_PERIOD_MS) :
    (runScans s ([(false, t1), (false, t2), (false, t3)] ++
        gts.map (fun t => (false, t)) ++ [(true, td)])).2 = [] ∧
    (runScans s ([(false, t1), (false, t2), (false, t3)] ++
        gts.map (fun t => (false, t)) ++ [(true, td)])).1.currentPresence = true ∧
    (runScans s ([(false, t1), (false, t2), (false, t3)] ++
        gts.map (fun t => (false, t)) ++ [(true, td)])).1.inGracePeriod = false ∧
    getPresence (runScans s ([(false, t1), (false, t2), (false, t3)] ++
        gts.map (fun t => (false, t)) ++ [(true, td)])).1 = true ∧
    (∀ x ∈ midStates s ([(false, t1), (false, t2), (false, t3)] ++
        gts.map (fun t => (false, t)) ++ [(true, td)]), getPresence x = true) := by
  have e1 := feedScan_false_fewMisses s t1 hc
    (by rw [hm]; unfold CONFIRM_ABSENCE_SCANS; omega)
  have e2 := feedScan_false_fewMisses
    { s with consecutiveMisses := s.consecutiveMisses + 1,
             consecutiveDetections := 0 } t2 hc
    (by show s.consecutiveMisses + 1 + 1 < CONFIRM_ABSENCE_SCANS
        rw [hm]; unfold CONFIRM_ABSENCE_SCANS; omega)
  have e3 := feedScan_false_enterGrace
    { s with consecutiveMisses := s.consecutiveMisses + 1 + 1,
             consecutiveDetections := 0 } t3 hc hg
    (by show s.consecutiveMisses + 1 + 1 + 1 ≥ CONFIRM_ABSENCE_SCANS
        rw [hm]; unfold CONFIRM_ABSENCE_SCANS; omega)
  have hrun3 : runScans s [(false, t1), (false, t2), (false, t3)] =
      ({ s with consecutiveMisses := s.consecutiveMisses + 1 + 1 + 1,
                consecutiveDetections := 0, inGracePeriod := true,
                gracePeriodStartTime := t3, gracePeriodAttempts := 0,
                lastKnownPresence := true }, []) := by
    simp [runScans, e1, e2, e3]
  have hmid3 : midStates s [(false, t1), (false, t2), (false, t3)] =
      [s,
       { s with consecutiveMisses := s.consecutiveMisses + 1,
                consecutiveDetections := 0 },
       { s with consecutiveMisses := s.consecutiveMisses + 1 + 1,
                consecutiveDetections := 0 }] := by
    simp [midStates, e1, e2, e3]
  have hgm := runScans_graceMisses gts
    { s with consecutiveMisses := s.consecutiveMisses + 1 + 1 + 1,
             consecutiveDetections := 0, inGracePeriod := true,
             gracePeriodStartTime := t3, gracePeriodAttempts := 0,
             lastKnownPresence := true } hc rfl rfl
    (by show s.consecutiveMisses + 1 + 1 + 1 ≥ CONFIRM_ABSENCE_SCANS
        unfold CONFIRM_ABSENCE_SCANS; omega)
    (by show 0 + gts.length < BLE_RECONNECT_MAX_ATTEMPTS
        unfold BLE_RECONNECT_MAX_ATTEMPTS at hlen ⊢; omega)
    (by intro u hu; exact ht u hu)
  have e4 := feedScan_true_graceCancel
    (runScans
      { s with
        consecutiveMisses := s.consecutiveMisses + 1 + 1 + 1,
        consecutiveDetections := 0, inGracePeriod := true,
        gracePeriodStartTime := t3, gracePeriodAttempts := 0,
        lastKnownPresence := true }
      (gts.map (fun t => (false, t)))).1
    td hgm.2.2.2.1 hgm.2.1
  constructor
  · rw [runScans_append, runScans_append, hrun3]
    simp [runScans, e4, hrun3, hgm.1]
  constructor
  · rw [runScans_append, runScans_append, hrun3]
    simp [runScans, e4, hrun3, hgm.2.1]
  constructor
  · rw [runScans_append, runScans_append, hrun3]
    simp [runScans, e4, hrun3]
  constructor
  · rw [runScans_append, runScans_append, hrun3]
    simp [runScans, e4, hrun3, getPresence, hgm.2.1]
  · intro x hx
    rw [midStates_append, midStates_append, hrun3, hmid3] at hx
    rw [runScans_append, hrun3] at hx
    simp only [List.mem_append] at hx
    rcases hx with (hx | hx) | hx
    · simp only [List.mem_cons, List.not_mem_nil, or_false] at hx
      rcases hx with h1 | h1 | h1 <;> subst h1 <;>
        simp [getPresence, hg, hc]
    · exact hgm.2.2.2.2.2.2.2 x hx
    · have hx4 : x = (runScans
          { s with
            consecutiveMisses := s.consecutiveMisses + 1 + 1 + 1,
            consecutiveDetections := 0, inGracePeriod := true,
            gracePeriodStartTime := t3, gracePeriodAttempts := 0,
            lastKnownPresence := true }
          (gts.map (fun t => (false, t)))).1 := by
        simpa [midStates] using hx
      rw [hx4, getPresence, if_pos hgm.2.2.2.1]
      exact hgm.2.2.1


theorem C2_grace_cancel_no_publish_witness :
    (runScans { initPD with currentPresence := true }
       ([(false, 1000), (false, 2000), (false, 6000)] ++
         [8000, 10000].map (fun t => (false, t)) ++ [(true, 11000)])).2 = [] ∧
    getPresence (runScans { initPD with currentPresence := true }
       ([(false, 1000), (false, 2000), (false, 6000)] ++
         [8000, 10000].map (fun t => (false, t)) ++ [(true, 11000)])).1 = true := by
  have h := C2_grace_cancel_no_publish { initPD with currentPresence := true }
    1000 2000 6000 11000 [8000, 10000] rfl rfl rfl (by decide) (by decide)
  exact ⟨h.1, h.2.2.2.1⟩

/-- Claim C3 (amended): with no detection after the grace period starts, the
detector transitions to AWAY, with exactly one "AWAY" publish, at the first
miss evaluation for which either `BLE_GRACE_PERIOD_MS` has elapsed since
the grace period started **or** `BLE_RECONNECT_MAX_ATTEMPTS = 6` grace-period
miss evaluations have accumulated; before that it stays in grace reporting
presence `true`, and no further publish follows. -/
theorem C3_grace_expiry_conditions (s : PDState) (t1 t2 t3 tf : Nat)
    (gts trailing : List Nat)
    (hc : s.currentPresence = true) (hg : s.inGracePeriod = false)
    (hm : s.consecutiveMisses = 0)
    (hlen : gts.length ≤ BLE_RECONNECT_MAX_ATTEMPTS - 1)
    (ht : ∀ t ∈ gts, sub32 t t3 < BLE_GRACE_PERIOD_MS)
    (hfire : sub32 tf t3 ≥ BLE_GRACE_PERIOD_MS ∨
             gts.length + 1 ≥ BLE_RECONNECT_MAX_ATTEMPTS) :
    (runScans s ([(false, t1), (false, t2), (false, t3)] ++
        gts.map (fun t => (false, t)))).2 = [] ∧
    getPresence (runScans s ([(false, t1), (false, t2), (false, t3)] ++
        gts.map (fun t => (false, t)))).1 = true ∧
    (runScans s ([(false, t1), (false, t2), (false, t3)] ++
        gts.map (fun t => (false, t)))).1.inGracePeriod = true ∧
    (runScans s ([(false, t1), (false, t2), (false, t3)] ++
        gts.map (fun t => (false, t)) ++ [(false, tf)] ++
        trailing.map (fun t => (false, t)))).2 =
      [{ present := false, status := "AWAY" }] ∧
    (runScans s ([(false, t1), (false, t2), (false, t3)] ++
        gts.map (fun t => (false, t)) ++ [(false, tf)] ++
        trailing.map (fun t => (false, t)))).1.currentPresence = false ∧
    (runScans s ([(false, t1), (false, t2), (false, t3)] ++
        gts.map (fun t => (false, t)) ++ [(false, tf)] ++
        trailing.map (fun t => (false, t)))).1.inGracePeriod = false := by
  have e1 := feedScan_false_fewMisses s t1 hc
    (by rw [hm]; unfold CONFIRM_ABSENCE_SCANS; omega)
  have e2 := feedScan_false_fewMisses
    { s with consecutiveMisses := s.consecutiveMisses + 1,
             consecutiveDetections := 0 } t2 hc
    (by show s.consecutiveMisses + 1 + 1 < CONFIRM_ABSENCE_SCANS
        rw [hm]; unfold CONFIRM_ABSENCE_SCANS; omega)
  have e3 := feedScan_false_enterGrace
    { s with consecutiveMisses := s.consecutiveMisses + 1 + 1,
             consecutiveDetections := 0 } t3 hc hg
    (by show s.consecutiveMisses + 1 + 1 + 1 ≥ CONFIRM_ABSENCE_SCANS
        rw [hm]; unfold CONFIRM_ABSENCE_SCANS; omega)
  have hrun3 : runScans s [(false, t1), (false, t2), (false, t3)] =
      ({ s with consecutiveMisses := s.consecutiveMisses + 1 + 1 + 1,
                consecutiveDetections := 0, inGracePeriod := true,
                gracePeriodStartTime := t3, gracePeriodAttempts := 0,
                lastKnownPresence := true }, []) := by
    simp [runScans, e1, e2, e3]
  have hgm := runScans_graceMisses gts
    { s with consecutiveMisses := s.consecutiveMisses + 1 + 1 + 1,
             consecutiveDetections := 0, inGracePeriod := true,
             gracePeriodStartTime := t3, gracePeriodAttempts := 0,
             lastKnownPresence := true } hc rfl rfl
    (by show s.consecutiveMisses + 1 + 1 + 1 ≥ CONFIRM_ABSENCE_SCANS
        unfold CONFIRM_ABSENCE_SCANS; omega)
    (by show 0 + gts.length < BLE_RECONNECT_MAX_ATTEMPTS
        unfold BLE_RECONNECT_MAX_ATTEMPTS at hlen ⊢; omega)
    (by intro u hu; exact ht u hu)
  have hm4 : (runScans
      { s with
        consecutiveMisses := s.consecutiveMisses + 1 + 1 + 1,
        consecutiveDetections := 0, inGracePeriod := true,
        gracePeriodStartTime := t3, gracePeriodAttempts := 0,
        lastKnownPresence := true }
      (gts.map (fun t => (false, t)))).1.consecutiveMisses + 1 ≥
      CONFIRM_ABSENCE_SCANS := by
    have h5 := hgm.2.2.2.2.1
    unfold CONFIRM_ABSENCE_SCANS at h5 ⊢
    omega
  have hfire4 : sub32 tf (runScans
      { s with
        consecutiveMisses := s.consecutiveMisses + 1 + 1 + 1,
        consecutiveDetections := 0, inGracePeriod := true,
        gracePeriodStartTime := t3, gracePeriodAttempts := 0,
        lastKnownPresence := true }
      (gts.map (fun t => (false, t)))).1.gracePeriodStartTime ≥
        BLE_GRACE_PERIOD_MS ∨
      (runScans
      { s with
        consecutiveMisses := s.consecutiveMisses + 1 + 1 + 1,
        consecutiveDetections := 0, inGracePeriod := true,
        gracePeriodStartTime := t3, gracePeriodAttempts := 0,
        lastKnownPresence := true }
      (gts.map (fun t => (false, t)))).1.gracePeriodAttempts + 1 ≥
        BLE_RECONNECT_MAX_ATTEMPTS := by
    rw [hgm.2.2.2.2.2.1, hgm.2.2.2.2.2.2.1]
    simpa using hfire
  have e4 := feedScan_false_graceFire
    (runScans
      { s with
        consecutiveMisses := s.consecutiveMisses + 1 + 1 + 1,
        consecutiveDetections := 0, inGracePeriod := true,
        gracePeriodStartTime := t3, gracePeriodAttempts := 0,
        lastKnownPresence := true }
      (gts.map (fun t => (false, t)))).1
    tf hgm.2.1 hgm.2.2.2.1 hm4 hfire4
  have haway := runScans_away (trailing.map (fun t => (false, t)))
    { (runScans
        { s with
          consecutiveMisses := s.consecutiveMisses + 1 + 1 + 1,
          consecutiveDetections := 0, inGracePeriod := true,
          gracePeriodStartTime := t3, gracePeriodAttempts := 0,
          lastKnownPresence := true }
        (gts.map (fun t => (false, t)))).1 with
      consecutiveMisses := 0, consecutiveDetections := 0,
      inGracePeriod := false, gracePeriodAttempts := 0,
      currentPresence := false, lastStateChange := tf }
    rfl rfl
    (by apply noConfirm_of_allFalse; intro b hb; exact (by simpa using hb : ¬trailing = [] ∧ b = false).2)
  refine ⟨?_, ?_, ?_, ?_, ?_, ?_⟩
  · rw [runScans_append, hrun3]
    simp [runScans, hgm.1]
  · rw [runScans_append, hrun3, getPresence, if_pos hgm.2.2.2.1]
    exact hgm.2.2.1
  · rw [runScans_append, hrun3]
    exact hgm.2.2.2.1
  · rw [runScans_append, runScans_append, runScans_append, hrun3]
    simp only [runScans, e4, hgm.1]
    simp [haway.1]
  · rw [runScans_append, runScans_append, runScans_append, hrun3]
    simp only [runScans, e4]
    simp [haway.2.1]
  · rw [runScans_append, runScans_append, runScans_append, hrun3]
    simp only [runScans, e4]
    simp [haway.2.2.1]

/-- Claim C3 fails as stated: in this concrete run the grace period starts
at 6000 ms, and the "AWAY" publish fires at the miss at 18000 ms — after
only 12000 ms of grace, well before `BLE_GRACE_PERIOD_MS = 20000` — because
`BLE_RECONNECT_MAX_ATTEMPTS = 6` miss evaluations have accumulated. -/
theorem C3_grace_expiry_counterexample :
    (runScans initPD (c3Trace.take 5)).1.inGracePeriod = true ∧
    (runScans initPD (c3Trace.take 5)).1.gracePeriodStartTime = 6000 ∧
    (runScans initPD (c3Trace.take 10)).2 =
      [{ present := true, status := "AVAILABLE" }] ∧
    (runScans initPD c3Trace).2 =
      [{ present := true, status := "AVAILABLE" },
       { present := false, status := "AWAY" }] ∧
    sub32 18000 6000 < BLE_GRACE_PERIOD_MS := by
  refine ⟨rfl, rfl, rfl, rfl, by decide⟩


theorem C3_grace_expiry_conditions_witness :
    (runScans { initPD with currentPresence := true }
       ([(false, 1000), (false, 2000), (false, 6000)] ++
         [8000].map (fun t => (false, t)) ++ [(false, 27000)] ++
         [30000].map (fun t => (false, t)))).2 =
      [{ present := false, status := "AWAY" }] := by
  exact (C3_grace_expiry_conditions { initPD with currentPresence := true }
    1000 2000 6000 27000 [8000] [30000] rfl rfl rfl (by decide) (by decide)
    (by decide)).2.2.2.1

/-! ### Claim C4 -/

/-- Claim C4: a consultation message (non-cancellation topic) arriving while
the reported presence is false is dropped outright: the whole
consultation/display state — ring slots, head, tail, size, and the
currently-displayed message — is unchanged. -/
theorem C4_away_message_dropped
    (cancelHandler : CState → String → CState) (pd : PDState) (st : CState)
    (now : Nat) (topic payload : String)
    (htopic : strEndsWith topic "/cancellations" = false)
    (haway : getPresence pd = false) :
    onMqttMessage cancelHandler pd st now topic payload = st ∧
    (onMqttMessage cancelHandler pd st now topic payload).consultationQueue =
      st.consultationQueue ∧
    (onMqttMessage cancelHandler pd st now topic payload).consultationQueueHead =
      st.consultationQueueHead ∧
    (onMqttMessage cancelHandler pd st now topic payload).consultationQueueTail =
      st.consultationQueueTail ∧
    (onMqttMessage cancelHandler pd st now topic payload).consultationQueueSize =
      st.consultationQueueSize ∧
    (onMqttMessage cancelHandler pd st now topic payload).currentMessage =
      st.currentMessage ∧
    (onMqttMessage cancelHandler pd st now topic payload).currentMessageDisplayed =
      st.currentMessageDisplayed := by
  have h : onMqttMessage cancelHandler pd st now topic payload = st := by
    unfold onMqttMessage
    rw [htopic]
    simp only [Bool.false_eq_true, if_false]
    cases strIndexOf (String.mk (payload.toList.take MAX_MESSAGE_LENGTH)) "CID:" with
    | none => rfl
    | some i => simp [haway]
  exact ⟨h, by rw [h], by rw [h], by rw [h], by rw [h], by rw [h], by rw [h]⟩

theorem C4_away_message_dropped_witness :
    onMqttMessage (fun s _ => s) initPD
      { consultationQueue := List.replicate 10 emptyConsultationMessage,
        consultationQueueHead := 0, consultationQueueTail := 0,
        consultationQueueSize := 0, currentMessageDisplayed := false,
        messageDisplayed := false, currentMessage := "",
        g_receivedConsultationId := "", messageDisplayStart := 0 }
      5 "consultease/faculty/1/messages" "CID:42 hello" =
      { consultationQueue := List.replicate 10 emptyConsultationMessage,
        consultationQueueHead := 0, consultationQueueTail := 0,
        consultationQueueSize := 0, currentMessageDisplayed := false,
        messageDisplayed := false, currentMessage := "",
        g_receivedConsultationId := "", messageDisplayStart := 0 } := by
  exact (C4_away_message_dropped (fun s _ => s) initPD _ 5
    "consultease/faculty/1/messages" "CID:42 hello" (by decide) (by decide)).1

/-! ### Claims C5 and C6 -/

theorem getD_set_self (l : List ConsultationMessage) (i : Nat)
    (a d : ConsultationMessage) (h : i < l.length) :
    (l.set i a).getD i d = a := by
  simp [List.getD_eq_getElem?_getD, List.getElem?_set_self',
    List.getElem?_eq_getElem h]

theorem getD_set_ne (l : List ConsultationMessage) (i j : Nat)
    (a d : ConsultationMessage) (hne : i ≠ j) :
    (l.set i a).getD j d = l.getD j d := by
  simp [List.getD_eq_getElem?_getD, List.getElem?_set_ne hne]

theorem getD_append_left (l l2 : List ConsultationMessage) (i : Nat)
    (d : ConsultationMessage) (h : i < l.length) :
    (l ++ l2).getD i d = l.getD i d := by
  simp [List.getD_eq_getElem?_getD, List.getElem?_append, h]

theorem mod10_inj (h i j : Nat) (hh : h < 10) (hi : i < 10) (hj : j < 10)
    (he : (h + i) % 10 = (h + j) % 10) : i = j := by omega

/-- `markUpTo` changes only the ring slots (and preserves their number). -/
theorem markUpTo_fields (target : String) (st : CState) (n : Nat) :
    (markUpTo target st n).1.consultationQueueHead = st.consultationQueueHead ∧
    (markUpTo target st n).1.consultationQueueTail = st.consultationQueueTail ∧
    (markUpTo target st n).1.consultationQueueSize = st.consultationQueueSize ∧
    (markUpTo target st n).1.consultationQueue.length =
      st.consultationQueue.length ∧
    (markUpTo target st n).1.currentMessageDisplayed = st.currentMessageDisplayed ∧
    (markUpTo target st n).1.messageDisplayed = st.messageDisplayed ∧
    (markUpTo target st n).1.currentMessage = st.currentMessage ∧
    (markUpTo target st n).1.g_receivedConsultationId =
      st.g_receivedConsultationId ∧
    (markUpTo target st n).1.messageDisplayStart = st.messageDisplayStart := by
  induction n with
  | zero => simp [markUpTo]
  | succ n ih =>
    simp only [markUpTo]
    split
    · simpa using ih
    · exact ih

/-- Pointwise effect of the marking loop on the ring slots. -/
theorem markUpTo_getD (target : String) (st : CState) (n : Nat)
    (hlen : st.consultationQueue.length = 10)
    (hh : st.consultationQueueHead < 10) (hn : n ≤ 10) (i : Nat) (hi : i < 10) :
    (markUpTo target st n).1.consultationQueue.getD
        ((st.consultationQueueHead + i) % 10) emptyConsultationMessage =
      (if i < n ∧ matchedB target (st.consultationQueue.getD
            ((st.consultationQueueHead + i) % 10) emptyConsultationMessage) = true
       then clearRemovedMsg (st.consultationQueue.getD
            ((st.consultationQueueHead + i) % 10) emptyConsultationMessage)
       else st.consultationQueue.getD
            ((st.consultationQueueHead + i) % 10) emptyConsultationMessage) := by
  induction n generalizing i hi with
  | zero => simp [markUpTo]
  | succ n ih =>
    have hn' : n ≤ 10 := by omega
    have hflds := markUpTo_fields target st n
    have hm := ih hn' n (by omega)
    rw [if_neg (by intro hcon; exact absurd hcon.1 (lt_irrefl n))] at hm
    simp only [markUpTo, hflds.1, MAX_CONSULTATION_QUEUE_SIZE]
    rw [hm]
    by_cases hmt : (st.consultationQueue.getD
        ((st.consultationQueueHead + n) % 10) emptyConsultationMessage).isValid = true ∧
        (st.consultationQueue.getD
          ((st.consultationQueueHead + n) % 10) emptyConsultationMessage).consultationId = target
    · rw [if_pos hmt]
      by_cases hin : i = n
      · subst hin
        have hlt : (st.consultationQueueHead + i) % 10 <
            (markUpTo target st i).1.consultationQueue.length := by
          rw [hflds.2.2.2.1, hlen]
          exact Nat.mod_lt _ (by omega)
        rw [getD_set_self _ _ _ _ hlt]
        rw [if_pos ⟨Nat.lt_succ_self i,
          by simp only [matchedB, Bool.and_eq_true, beq_iff_eq]; exact hmt⟩]
      · have hne : (st.consultationQueueHead + n) % 10 ≠
            (st.consultationQueueHead + i) % 10 := by
          intro he
          exact hin (mod10_inj st.consultationQueueHead n i hh (by omega) hi he).symm
        rw [getD_set_ne _ _ _ _ _ hne, ih hn' i hi]
        have hiff : (i < n ∧ matchedB target (st.consultationQueue.getD
              ((st.consultationQueueHead + i) % 10) emptyConsultationMessage) = true) ↔
            (i < n + 1 ∧ matchedB target (st.consultationQueue.getD
              ((st.consultationQueueHead + i) % 10) emptyConsultationMessage) = true) := by
          constructor
          · rintro ⟨h1, h2⟩; exact ⟨by omega, h2⟩
          · rintro ⟨h1, h2⟩; exact ⟨by omega, h2⟩
        rw [if_congr hiff rfl rfl]
    · rw [if_neg hmt, ih hn' i hi]
      by_cases hin : i = n
      · subst hin
        have hmb : matchedB target (st.consultationQueue.getD
            ((st.consultationQueueHead + i) % 10) emptyConsultationMessage) = false := by
          rcases Bool.eq_false_or_eq_true (matchedB target
            (st.consultationQueue.getD ((st.consultationQueueHead + i) % 10)
              emptyConsultationMessage)) with hb | hb
          · exact absurd
              (by simpa only [matchedB, Bool.and_eq_true, beq_iff_eq] using hb) hmt
          · exact hb
        rw [if_neg (by intro hcon; exact absurd hcon.1 (lt_irrefl i)),
          if_neg (by intro hcon; rw [hmb] at hcon; exact absurd hcon.2 (by simp))]
      · have hiff : (i < n ∧ matchedB target (st.consultationQueue.getD
              ((st.consultationQueueHead + i) % 10) emptyConsultationMessage) = true) ↔
            (i < n + 1 ∧ matchedB target (st.consultationQueue.getD
              ((st.consultationQueueHead + i) % 10) emptyConsultationMessage) = true) := by
          constructor
          · rintro ⟨h1, h2⟩; exact ⟨by omega, h2⟩
          · rintro ⟨h1, h2⟩; exact ⟨by omega, h2⟩
        rw [if_congr hiff rfl rfl]


/-- The loop's `removedCount` counts the matching logical entries. -/
theorem markUpTo_count (target : String) (st : CState) (n : Nat)
    (hlen : st.consultationQueue.length = 10)
    (hh : st.consultationQueueHead < 10) (hn : n ≤ 10) :
    (markUpTo target st n).2 =
      ((List.range n).map (fun i => st.consultationQueue.getD
        ((st.consultationQueueHead + i) % 10) emptyConsultationMessage)).countP
        (matchedB target) := by
  induction n with
  | zero => simp [markUpTo]
  | succ n ih =>
    have hn' : n ≤ 10 := by omega
    have hflds := markUpTo_fields target st n
    have hm := markUpTo_getD target st n hlen hh hn' n (by omega)
    rw [if_neg (by intro hcon; exact absurd hcon.1 (lt_irrefl n))] at hm
    rw [List.range_succ, List.map_append, List.countP_append]
    simp only [markUpTo, hflds.1, MAX_CONSULTATION_QUEUE_SIZE]
    rw [hm]
    by_cases hmt : (st.consultationQueue.getD
        ((st.consultationQueueHead + n) % 10) emptyConsultationMessage).isValid = true ∧
        (st.consultationQueue.getD
          ((st.consultationQueueHead + n) % 10) emptyConsultationMessage).consultationId = target
    · rw [if_pos hmt]
      show (markUpTo target st n).2 + 1 = _
      rw [ih hn']
      simp only [List.map_cons, List.map_nil, List.countP_cons, List.countP_nil]
      rw [if_pos (by simp only [matchedB, Bool.and_eq_true, beq_iff_eq]; exact hmt)]
    · rw [if_neg hmt]
      show (markUpTo target st n).2 = _
      rw [ih hn']
      simp only [List.map_cons, List.map_nil, List.countP_cons, List.countP_nil]
      rw [if_neg (by intro hb
                     exact absurd (by simpa only [matchedB, Bool.and_eq_true,
                       beq_iff_eq] using hb) hmt)]
      omega

/-- When nothing matches, the marking loop leaves the state untouched. -/
theorem markUpTo_eq_self (target : String) (st : CState) (n : Nat)
    (h0 : (markUpTo target st n).2 = 0) : (markUpTo target st n).1 = st := by
  induction n with
  | zero => rfl
  | succ n ih =>
    simp only [markUpTo] at h0 ⊢
    split at h0 <;> rename_i hcond
    · simp at h0
    · rw [if_neg hcond]
      exact ih h0

/-- Extensionality: `(range l.length).map (getD l) = l`. -/
theorem map_getD_range (l : List ConsultationMessage) :
    (List.range l.length).map
      (fun i => l.getD i emptyConsultationMessage) = l := by
  induction l with
  | nil => simp
  | cons a rest ih =>
    rw [List.length_cons, List.range_succ_eq_map, List.map_cons, List.map_map]
    simp only [Function.comp_def, List.getD_cons_zero, List.getD_cons_succ]
    rw [ih]


theorem length_logicalEntries (st : CState)
    (hsz : st.consultationQueueSize ≤ 10) :
    (logicalEntries st).length = st.consultationQueueSize := by
  simp only [logicalEntries, MAX_CONSULTATION_QUEUE_SIZE, List.length_map,
    List.length_range]
  omega

/-- Marking all logical entries acts as a pointwise clear-if-matched map on
the logical content. -/
theorem logicalEntries_markUpTo (target : String) (st : CState)
    (hlen : st.consultationQueue.length = 10)
    (hsz : st.consultationQueueSize ≤ 10) (hh : st.consultationQueueHead < 10) :
    logicalEntries (markUpTo target st
        (min st.consultationQueueSize MAX_CONSULTATION_QUEUE_SIZE)).1 =
      (logicalEntries st).map
        (fun m => if matchedB target m = true then clearRemovedMsg m else m) := by
  have hflds := markUpTo_fields target st
    (min st.consultationQueueSize MAX_CONSULTATION_QUEUE_SIZE)
  unfold logicalEntries
  rw [hflds.2.2.1, hflds.1, List.map_map]
  apply List.map_congr_left
  intro i hi
  have hin : i < min st.consultationQueueSize MAX_CONSULTATION_QUEUE_SIZE :=
    List.mem_range.mp hi
  have hi10 : i < 10 :=
    Nat.lt_of_lt_of_le hin (Nat.min_le_right _ _)
  have hgd := markUpTo_getD target st
    (min st.consultationQueueSize MAX_CONSULTATION_QUEUE_SIZE) hlen hh
    (Nat.min_le_right _ _) i hi10
  simp only [MAX_CONSULTATION_QUEUE_SIZE] at hgd ⊢
  rw [hgd]
  simp only [Function.comp_def]
  by_cases hM : matchedB target (st.consultationQueue.getD
      ((st.consultationQueueHead + i) % 10) emptyConsultationMessage) = true
  · rw [if_pos ⟨by simpa [MAX_CONSULTATION_QUEUE_SIZE] using hin, hM⟩, if_pos hM]
  · rw [if_neg (by intro hcon; exact hM hcon.2), if_neg hM]

/-- What `compactConsultationQueue` does to the bookkeeping and the logical
content. -/
theorem compact_spec (st : CState) (hlen : st.consultationQueue.length = 10)
    (hsz : st.consultationQueueSize ≤ 10) :
    (compactConsultationQueue st).consultationQueueHead = 0 ∧
    (compactConsultationQueue st).consultationQueueTail =
      ((logicalEntries st).filter (fun m => m.isValid)).length ∧
    (compactConsultationQueue st).consultationQueueSize =
      ((logicalEntries st).filter (fun m => m.isValid)).length ∧
    logicalEntries (compactConsultationQueue st) =
      (logicalEntries st).filter (fun m => m.isValid) := by
  have hts : ((logicalEntries st).filter (fun m => m.isValid)).length ≤ 10 := by
    calc ((logicalEntries st).filter (fun m => m.isValid)).length
        ≤ (logicalEntries st).length := List.length_filter_le _ _
      _ = st.consultationQueueSize := length_logicalEntries st hsz
      _ ≤ 10 := hsz
  refine ⟨rfl, rfl, rfl, ?_⟩
  show (List.range (min _ MAX_CONSULTATION_QUEUE_SIZE)).map _ = _
  rw [show min ((compactConsultationQueue st).consultationQueueSize)
        MAX_CONSULTATION_QUEUE_SIZE =
      ((logicalEntries st).filter (fun m => m.isValid)).length from
    Nat.min_eq_left (by simpa [MAX_CONSULTATION_QUEUE_SIZE] using hts)]
  have hpt : ∀ i ∈ List.range
      ((logicalEntries st).filter (fun m => m.isValid)).length,
      (compactConsultationQueue st).consultationQueue.getD
        (((compactConsultationQueue st).consultationQueueHead + i) %
          MAX_CONSULTATION_QUEUE_SIZE) emptyConsultationMessage =
      ((logicalEntries st).filter (fun m => m.isValid)).getD i
        emptyConsultationMessage := by
    intro i hi
    have hi' : i < ((logicalEntries st).filter (fun m => m.isValid)).length :=
      List.mem_range.mp hi
    have h10 : i < 10 := Nat.lt_of_lt_of_le hi' hts
    show ((logicalEntries st).filter (fun m => m.isValid) ++
        ((st.consultationQueue.map clearCompactMsg).drop
          ((logicalEntries st).filter (fun m => m.isValid)).length)).getD
        ((0 + i) % MAX_CONSULTATION_QUEUE_SIZE) emptyConsultationMessage = _
    rw [Nat.zero_add,
      show i % MAX_CONSULTATION_QUEUE_SIZE = i from Nat.mod_eq_of_lt
        (by simpa [MAX_CONSULTATION_QUEUE_SIZE] using h10),
      getD_append_left _ _ _ _ hi']
  rw [List.map_congr_left hpt]
  exact map_getD_range _

/-- Compacting the clear-if-matched image keeps exactly the non-matching
entries, when every entry was valid. -/
theorem filter_map_clear (target : String) (L : List ConsultationMessage)
    (hv : ∀ m ∈ L, m.isValid = true) :
    (L.map (fun m => if matchedB target m = true then clearRemovedMsg m
        else m)).filter (fun m => m.isValid) =
      L.filter (fun m => !(m.consultationId == target)) := by
  induction L with
  | nil => rfl
  | cons a rest ih =>
    have hva : a.isValid = true := hv a (by simp)
    have ih1 := ih (fun m hm => hv m (by simp [hm]))
    by_cases hM : matchedB target a = true
    · have hid : (a.consultationId == target) = true := by
        simp only [matchedB, Bool.and_eq_true] at hM
        exact hM.2
      have hcv : (clearRemovedMsg a).isValid = false := rfl
      simp [List.filter_cons, hM, hid, hcv, ih1]
    · have hid : (a.consultationId == target) = false := by
        rcases Bool.eq_false_or_eq_true (a.consultationId == target) with hb | hb
        · exact absurd (by simp [matchedB, hva, hb]) hM
        · exact hb
      simp [List.filter_cons, hM, hva, hid, ih1]

theorem length_filter_not (p : ConsultationMessage → Bool)
    (L : List ConsultationMessage) :
    (L.filter (fun a => !(p a))).length = L.length - L.countP p := by
  induction L with
  | nil => rfl
  | cons a rest ih =>
    have hle := List.countP_le_length (p := p) (l := rest)
    by_cases hp : p a = true
    · simp [List.filter_cons, List.countP_cons, hp, ih]
    · have hp0 : p a = false := by
        rcases Bool.eq_false_or_eq_true (p a) with hb | hb
        · exact absurd hb hp
        · exact hb
      simp [List.filter_cons, List.countP_cons, hp0, ih]
      omega


theorem countP_matched_eq (target : String) (L : List ConsultationMessage)
    (hv : ∀ m ∈ L, m.isValid = true) :
    L.countP (matchedB target) =
      L.countP (fun m => m.consultationId == target) := by
  induction L with
  | nil => rfl
  | cons a rest ih =>
    have hva := hv a (by simp)
    have ih1 := ih (fun m hm => hv m (by simp [hm]))
    simp [List.countP_cons, matchedB, hva, ih1]

/-- Claim C5: marking the entries matching a consultation ID invalid and
compacting yields `size = old size − matches`, resets `head = 0` and
`tail = size`, and keeps the surviving entries in their original FIFO
order; `removeConsultationFromQueue` performs exactly this composite when a
match exists and leaves the state untouched otherwise. -/
theorem C5_removeById_then_compaction (st : CState) (target : String)
    (hwf : wfQueue st) :
    (removeByIdThenCompact st target).consultationQueueSize =
      st.consultationQueueSize -
        (logicalEntries st).countP (fun m => m.consultationId == target) ∧
    (removeByIdThenCompact st target).consultationQueueHead = 0 ∧
    (removeByIdThenCompact st target).consultationQueueTail =
      (removeByIdThenCompact st target).consultationQueueSize ∧
    logicalEntries (removeByIdThenCompact st target) =
      (logicalEntries st).filter (fun m => !(m.consultationId == target)) ∧
    (0 < (logicalEntries st).countP (fun m => m.consultationId == target) →
      removeConsultationFromQueue st target =
        (true, removeByIdThenCompact st target)) ∧
    ((logicalEntries st).countP (fun m => m.consultationId == target) = 0 →
      removeConsultationFromQueue st target = (false, st)) := by
  obtain ⟨hlen, hsz, hh, htl, hv⟩ := hwf
  have hmflds := markUpTo_fields target st
    (min st.consultationQueueSize MAX_CONSULTATION_QUEUE_SIZE)
  have hLM := logicalEntries_markUpTo target st hlen hsz hh
  have hcs := compact_spec
    (markUpTo target st (min st.consultationQueueSize
      MAX_CONSULTATION_QUEUE_SIZE)).1
    (by rw [hmflds.2.2.2.1]; exact hlen)
    (by rw [hmflds.2.2.1]; exact hsz)
  have hfil : logicalEntries (removeByIdThenCompact st target) =
      (logicalEntries st).filter (fun m => !(m.consultationId == target)) := by
    unfold removeByIdThenCompact
    rw [hcs.2.2.2, hLM, filter_map_clear target _ hv]
  have hsize : (removeByIdThenCompact st target).consultationQueueSize =
      st.consultationQueueSize -
        (logicalEntries st).countP (fun m => m.consultationId == target) := by
    show (compactConsultationQueue _).consultationQueueSize = _
    rw [hcs.2.2.1, hLM, filter_map_clear target _ hv, length_filter_not,
      length_logicalEntries st hsz]
  have hcount : (markUpTo target st (min st.consultationQueueSize
      MAX_CONSULTATION_QUEUE_SIZE)).2 =
      (logicalEntries st).countP (fun m => m.consultationId == target) := by
    rw [markUpTo_count target st
      (min st.consultationQueueSize MAX_CONSULTATION_QUEUE_SIZE) hlen hh
      (by unfold MAX_CONSULTATION_QUEUE_SIZE; exact Nat.min_le_right _ _)]
    rw [← countP_matched_eq target _ hv]
    unfold logicalEntries
    simp only [MAX_CONSULTATION_QUEUE_SIZE]
  refine ⟨hsize, ?_, ?_, hfil, ?_, ?_⟩
  · exact hcs.1
  · show (compactConsultationQueue (markUpTo target st
        (min st.consultationQueueSize MAX_CONSULTATION_QUEUE_SIZE)).1).consultationQueueTail =
      (compactConsultationQueue (markUpTo target st
        (min st.consultationQueueSize MAX_CONSULTATION_QUEUE_SIZE)).1).consultationQueueSize
    rw [hcs.2.1, hcs.2.2.1]
  · intro hpos
    unfold removeConsultationFromQueue
    rw [if_pos (by rw [hcount]; exact hpos)]
    rfl
  · intro hzero
    unfold removeConsultationFromQueue
    rw [if_neg (by rw [hcount, hzero]; omega)]
    rw [markUpTo_eq_self target st _ (by rw [hcount]; exact hzero)]


theorem C5_removeById_then_compaction_witness :
    (removeByIdThenCompact wQueueState "7").consultationQueueSize =
      wQueueState.consultationQueueSize -
        (logicalEntries wQueueState).countP
          (fun m => m.consultationId == "7") ∧
    logicalEntries (removeByIdThenCompact wQueueState "7") =
      (logicalEntries wQueueState).filter
        (fun m => !(m.consultationId == "7")) ∧
    removeConsultationFromQueue wQueueState "7" =
      (true, removeByIdThenCompact wQueueState "7") := by
  have h := C5_removeById_then_compaction wQueueState "7"
    (by constructor
        · decide
        · refine ⟨by decide, by decide, by decide, by decide⟩)
  exact ⟨h.1, h.2.2.2.1, h.2.2.2.2.1 (by decide)⟩


/-- Claim C6: `addConsultationToQueue` never fails; on a full queue
(size = 10) it evicts exactly the oldest (head) entry, the size stays 10,
the new message sits at the tail, and the bookkeeping stays consistent. -/
theorem C6_enqueue_full_evicts_oldest :
    (∀ (st : CState) (now : Nat) (content cid : String),
      (addConsultationToQueue st now content cid).1 = true)
  ∧ (∀ (st : CState) (now : Nat) (content cid : String), wfQueue st →
      st.consultationQueueSize = 10 →
      (addConsultationToQueue st now content cid).2.consultationQueueSize = 10 ∧
      logicalEntries (addConsultationToQueue st now content cid).2 =
        (logicalEntries st).drop 1 ++
          [{ parseConsultationMessage content cid with
             timestamp := now, isValid := true }] ∧
      (addConsultationToQueue st now content cid).2.consultationQueueTail =
        (st.consultationQueueTail + 1) % 10 ∧
      (addConsultationToQueue st now content cid).2.consultationQueueHead =
        (st.consultationQueueHead + 1) % 10) := by
  constructor
  · intro st now content cid
    rfl
  · intro st now content cid hwf hfull
    obtain ⟨hlen, hsz, hh, htl, hv⟩ := hwf
    have htail : st.consultationQueueTail = st.consultationQueueHead := by
      rw [htl, hfull]
      omega
    have hstep : addConsultationToQueue st now content cid =
        (true,
         { st with
           consultationQueue := st.consultationQueue.set
             st.consultationQueueTail
             { parseConsultationMessage content cid with
               timestamp := now, isValid := true },
           consultationQueueHead :=
             (st.consultationQueueHead + 1) % MAX_CONSULTATION_QUEUE_SIZE,
           consultationQueueTail :=
             (st.consultationQueueTail + 1) % MAX_CONSULTATION_QUEUE_SIZE,
           consultationQueueSize := 10 }) := by
      unfold addConsultationToQueue
      rw [if_pos (by rw [hfull]; unfold MAX_CONSULTATION_QUEUE_SIZE; omega)]
      simp [hfull]
    rw [hstep]
    refine ⟨rfl, ?_, by simp [MAX_CONSULTATION_QUEUE_SIZE], rfl⟩
    have hRHS : (logicalEntries st).drop 1 =
        (List.range 9).map (fun i => st.consultationQueue.getD
          ((st.consultationQueueHead + (i + 1)) % 10) emptyConsultationMessage) := by
      unfold logicalEntries
      simp only [MAX_CONSULTATION_QUEUE_SIZE]
      rw [show min st.consultationQueueSize 10 = 10 by omega]
      rw [show (10 : Nat) = 9 + 1 from rfl, List.range_succ_eq_map,
        List.map_cons, List.map_map, List.drop_one, List.tail_cons]
      apply List.map_congr_left
      intro i hi
      simp only [Function.comp_def]
    rw [hRHS]
    unfold logicalEntries
    simp only [MAX_CONSULTATION_QUEUE_SIZE]
    rw [show min (10 : Nat) 10 = 10 from rfl]
    rw [show (10 : Nat) = 9 + 1 from rfl, List.range_succ, List.map_append]
    congr 1
    · apply List.map_congr_left
      intro i hi
      have hi9 : i < 9 := List.mem_range.mp hi
      have hne : st.consultationQueueTail ≠
          (((st.consultationQueueHead + 1) % (9 + 1) + i) % (9 + 1)) := by
        rw [htail]
        omega
      rw [getD_set_ne _ _ _ _ _ hne]
      congr 1
      omega
    · have heq : (((st.consultationQueueHead + 1) % (9 + 1) + 9) % (9 + 1)) =
          st.consultationQueueTail := by
        rw [htail]
        omega
      rw [List.map_cons, List.map_nil, heq,
        getD_set_self _ _ _ _ (by rw [hlen, htail]; omega)]

theorem C6_enqueue_full_evicts_oldest_witness :
    (addConsultationToQueue
      { wQueueState with
        consultationQueue := List.replicate 10 (wMsg "9"),
        consultationQueueHead := 2, consultationQueueTail := 2,
        consultationQueueSize := 10 } 77 "From: A (SID: 5): hi" "42").1 = true ∧
    (addConsultationToQueue
      { wQueueState with
        consultationQueue := List.replicate 10 (wMsg "9"),
        consultationQueueHead := 2, consultationQueueTail := 2,
        consultationQueueSize := 10 } 77 "From: A (SID: 5): hi" "42").2.consultationQueueSize = 10 := by
  refine ⟨C6_enqueue_full_evicts_oldest.1 _ 77 _ _, ?_⟩
  exact (C6_enqueue_full_evicts_oldest.2
    { wQueueState with
      consultationQueue := List.replicate 10 (wMsg "9"),
      consultationQueueHead := 2, consultationQueueTail := 2,
      consultationQueueSize := 10 } 77 "From: A (SID: 5): hi" "42"
    (by refine ⟨by decide, by decide, by decide, by decide, by decide⟩)
    (by decide)).1

/-! ### Claims C7, C8, C9 and C10 -/

theorem pqm_not_connected (conn : MqttConn) (ok : Bool) (q : List SimpleMessage)
    (hc : isMqttReallyConnected conn = false) :
    processQueuedMessages conn ok q = (false, q, []) := by
  simp [processQueuedMessages, hc]

theorem pqm_success (conn : MqttConn) (m : SimpleMessage)
    (rest : List SimpleMessage) (hc : isMqttReallyConnected conn = true) :
    processQueuedMessages conn true (m :: rest) =
      (true, rest, [{ topic := m.topic, payload := m.payload,
                      retained := false, ok := true }]) := by
  simp [processQueuedMessages, hc]

theorem pqm_fail_keep (conn : MqttConn) (m : SimpleMessage)
    (rest : List SimpleMessage) (hc : isMqttReallyConnected conn = true)
    (hr : m.retry_count < 3) :
    processQueuedMessages conn false (m :: rest) =
      (false, { m with retry_count := m.retry_count + 1 } :: rest,
       [{ topic := m.topic, payload := m.payload,
          retained := false, ok := false }]) := by
  have h3 : ¬(m.retry_count + 1 > 3) := by omega
  simp [processQueuedMessages, hc, h3]

theorem pqm_fail_drop (conn : MqttConn) (m : SimpleMessage)
    (rest : List SimpleMessage) (hc : isMqttReallyConnected conn = true)
    (hr : m.retry_count ≥ 3) :
    processQueuedMessages conn false (m :: rest) =
      (false, rest,
       [{ topic := m.topic, payload := m.payload,
          retained := false, ok := false }]) := by
  have h3 : m.retry_count + 1 > 3 := by omega
  simp [processQueuedMessages, hc, h3]

/-- The drain loop attempts at most `n` envelopes, always the queue front
first, in FIFO order, and never sets the retained flag. -/
theorem drainLoop_fifo (conn : MqttConn) (n : Nat) (oks : List Bool)
    (q : List SimpleMessage) :
    (drainLoop conn n oks q).2.length ≤ n ∧
    (drainLoop conn n oks q).2.map (fun a => (a.topic, a.payload)) =
      (q.take (drainLoop conn n oks q).2.length).map
        (fun m => (m.topic, m.payload)) ∧
    (∀ a ∈ (drainLoop conn n oks q).2, a.retained = false) := by
  induction n generalizing oks q with
  | zero => simp [drainLoop]
  | succ n ih =>
    by_cases hc : isMqttReallyConnected conn = true
    · cases q with
      | nil => simp [drainLoop, processQueuedMessages]
      | cons m rest =>
        have hfail : ∀ oktl : List Bool,
            ((drainLoop conn (n + 1) (false :: oktl) (m :: rest)).2.length ≤ n + 1 ∧
            (drainLoop conn (n + 1) (false :: oktl) (m :: rest)).2.map
                (fun a => (a.topic, a.payload)) =
              ((m :: rest).take (drainLoop conn (n + 1) (false :: oktl)
                  (m :: rest)).2.length).map (fun m => (m.topic, m.payload)) ∧
            (∀ a ∈ (drainLoop conn (n + 1) (false :: oktl) (m :: rest)).2,
              a.retained = false)) := by
          intro oktl
          by_cases hr : m.retry_count < 3
          · have hstep := pqm_fail_keep conn m rest hc hr
            simp [drainLoop, hstep]
          · have hstep := pqm_fail_drop conn m rest hc (by omega)
            simp [drainLoop, hstep]
        cases oks with
        | nil =>
          by_cases hr : m.retry_count < 3
          · have hstep := pqm_fail_keep conn m rest hc hr
            simp [drainLoop, hstep]
          · have hstep := pqm_fail_drop conn m rest hc (by omega)
            simp [drainLoop, hstep]
        | cons b obs =>
          cases b with
          | false => exact hfail obs
          | true =>
            have hstep := pqm_success conn m rest hc
            have ihr := ih obs rest
            simp only [drainLoop, List.headD, List.head?_cons, Option.getD_some,
              List.tail_cons, hstep, eq_self_iff_true, if_true]
            refine ⟨by simpa using ihr.1, ?_, ?_⟩
            · simp [List.take_succ_cons, ihr.2.1]
            · intro a ha
              rcases List.mem_cons.mp (by simpa using ha) with h1 | h1
              · rw [h1]
              · exact ihr.2.2 a h1
    · have hc0 : isMqttReallyConnected conn = false := by
        rcases Bool.eq_false_or_eq_true (isMqttReallyConnected conn) with hb | hb
        · exact absurd hb hc
        · exact hb
      have hstep := pqm_not_connected conn (oks.head?.getD false) q hc0
      simp [drainLoop, hstep]

theorem updateOfflineQueue_attempts (conn : MqttConn) (w : Bool)
    (oks : List Bool) (q : List SimpleMessage) :
    (updateOfflineQueue conn w oks q).2.length ≤ 3 ∧
    (updateOfflineQueue conn w oks q).2.map (fun a => (a.topic, a.payload)) =
      (q.take (updateOfflineQueue conn w oks q).2.length).map
        (fun m => (m.topic, m.payload)) ∧
    (∀ a ∈ (updateOfflineQueue conn w oks q).2, a.retained = false) := by
  by_cases h : ((w && isMqttReallyConnected conn) && decide (0 < q.length)) = true
  · have hd := drainLoop_fifo conn (min 3 q.length) oks q
    simp only [updateOfflineQueue, h, if_true]
    exact ⟨Nat.le_trans hd.1 (Nat.min_le_left _ _), hd.2.1, hd.2.2⟩
  · simp only [updateOfflineQueue]
    rw [if_neg h]
    simp


/-- A drain tick whose first attempt fails touches only the head envelope:
its retry count is bumped, and it is dropped once the count passes 3. -/
theorem updateOfflineQueue_failHead (conn : MqttConn) (m : SimpleMessage)
    (rest : List SimpleMessage)
    (hc : isMqttReallyConnected conn = true) :
    updateOfflineQueue conn true [false] (m :: rest) =
      ((if m.retry_count + 1 > 3 then rest
        else { m with retry_count := m.retry_count + 1 } :: rest),
       [{ topic := m.topic, payload := m.payload,
          retained := false, ok := false }]) := by
  have honline : ((true && isMqttReallyConnected conn) &&
      decide (0 < (m :: rest).length)) = true := by simp [hc]
  have hmin : min 3 (m :: rest).length = min 2 rest.length + 1 := by
    simp [Nat.succ_min_succ]
  simp only [updateOfflineQueue, honline, if_true, hmin]
  by_cases hr : m.retry_count < 3
  · have hstep := pqm_fail_keep conn m rest hc hr
    rw [if_neg (by omega)]
    simp [drainLoop, hstep]
  · have hstep := pqm_fail_drop conn m rest hc (by omega)
    rw [if_pos (by omega)]
    simp [drainLoop, hstep]

/-- Four consecutive failing ticks: the head envelope survives the first
three (reaching `retry_count = 3`) and is dropped at the fourth. -/
theorem runTicks_four_strikes (conn : MqttConn) (m : SimpleMessage)
    (rest : List SimpleMessage) (hc : isMqttReallyConnected conn = true)
    (h0 : m.retry_count = 0) :
    (∀ j ≤ 3, (runTicks conn true (List.replicate j [false]) (m :: rest)).1 =
      { m with retry_count := j } :: rest) ∧
    (runTicks conn true (List.replicate 4 [false]) (m :: rest)).1 = rest := by
  have t0 := updateOfflineQueue_failHead conn m rest hc
  rw [h0, if_neg (by omega)] at t0
  have t1 := updateOfflineQueue_failHead conn { m with retry_count := 1 } rest hc
  rw [if_neg (by simp)] at t1
  have t2 := updateOfflineQueue_failHead conn { m with retry_count := 2 } rest hc
  rw [if_neg (by simp)] at t2
  have t3 := updateOfflineQueue_failHead conn { m with retry_count := 3 } rest hc
  rw [if_pos (by simp)] at t3
  have hm0 : { m with retry_count := 0 } = m := by rw [← h0]
  constructor
  · intro j hj
    match j, hj with
    | 0, _ => simp [runTicks, hm0]
    | 1, _ => simp [runTicks, t0, t1, t2, t3]
    | 2, _ => simp [runTicks, t0, t1, t2, t3]
    | 3, _ => simp [runTicks, t0, t1, t2, t3]
  · simp [runTicks, t0, t1, t2, t3]


/-- Claim C7 (amended): for payloads that pass the pre-publish size check
(≤ `MQTT_MAX_PACKET_SIZE − 50` = 974 characters), a direct publish is
attempted iff the connected flag and the protocol state code are both
nominal, and whenever the direct attempt is not made or fails the message
is appended — truncated to the envelope buffers — to the offline queue,
which at capacity 10 first drops its oldest envelope; an oversized payload
is instead rejected outright: no attempt, nothing queued. -/
theorem C7_publish_gate_and_queueing :
    (∀ (conn : MqttConn) (ok : Bool) (now : Nat) (q : List SimpleMessage)
       (topic payload : List Char) (isResponse : Bool),
      payload.length ≤ MQTT_MAX_PACKET_SIZE - 50 →
      (((publishWithQueue conn ok now q topic payload isResponse).2.2 ≠ []) ↔
        isMqttReallyConnected conn = true) ∧
      (isMqttReallyConnected conn = true → ok = true →
        (publishWithQueue conn ok now q topic payload isResponse).2.1 = q) ∧
      ((isMqttReallyConnected conn = false ∨ ok = false) →
        (publishWithQueue conn ok now q topic payload isResponse).2.1 =
          (if q.length ≥ 10 then (q.drop 1).take 9 else q) ++
            [{ topic := topic.take 63, payload := payload.take 511,
               timestamp := now, retry_count := 0, is_response := isResponse }] ∧
        (publishWithQueue conn ok now q topic payload isResponse).1 = true) ∧
      (q.length ≤ 10 →
        (publishWithQueue conn ok now q topic payload isResponse).2.1.length ≤ 10))
  ∧ (∀ (conn : MqttConn) (ok : Bool) (now : Nat) (q : List SimpleMessage)
       (topic payload : List Char) (isResponse : Bool),
      payload.length > MQTT_MAX_PACKET_SIZE - 50 →
      publishWithQueue conn ok now q topic payload isResponse =
        (false, q, [])) := by
  constructor
  · intro conn ok now q topic payload isResponse hsize
    have hq : ∀ (b : Bool × List SimpleMessage),
        b = queueMessage now q topic payload isResponse →
        b.2 = (if q.length ≥ 10 then (q.drop 1).take 9 else q) ++
          [{ topic := topic.take 63, payload := payload.take 511,
             timestamp := now, retry_count := 0, is_response := isResponse }] ∧
        b.1 = true := by
      intro b hb
      rw [hb]
      exact ⟨rfl, rfl⟩
    have hqlen : q.length ≤ 10 →
        (queueMessage now q topic payload isResponse).2.length ≤ 10 := by
      intro h10
      show ((if q.length ≥ 10 then (q.drop 1).take 9 else q) ++ _).length ≤ 10
      rw [List.length_append]
      by_cases hful : q.length ≥ 10
      · rw [if_pos hful]
        simp [List.length_take, List.length_drop]
      · rw [if_neg hful]
        simp
        omega
    by_cases hc : isMqttReallyConnected conn = true
    · cases ok with
      | true =>
        have : publishWithQueue conn true now q topic payload isResponse =
            (true, q, [{ topic := topic, payload := payload, retained := !isResponse, ok := true }]) := by
          unfold publishWithQueue
          rw [if_neg (by omega), if_pos hc]
          rfl
        rw [this]
        refine ⟨by simp [hc], fun _ _ => rfl, ?_, fun h10 => h10⟩
        rintro (h1 | h1)
        · rw [h1] at hc; cases hc
        · cases h1
      | false =>
        have : publishWithQueue conn false now q topic payload isResponse =
            ((queueMessage now q topic payload isResponse).1,
             (queueMessage now q topic payload isResponse).2,
             [{ topic := topic, payload := payload, retained := !isResponse, ok := false }]) := by
          unfold publishWithQueue
          rw [if_neg (by omega), if_pos hc]
          rfl
        rw [this]
        refine ⟨by simp [hc], ?_, fun _ => hq _ rfl, fun h10 => hqlen h10⟩
        intro _ hko
        cases hko
    · have hc0 : isMqttReallyConnected conn = false := by
        rcases Bool.eq_false_or_eq_true (isMqttReallyConnected conn) with hb | hb
        · exact absurd hb hc
        · exact hb
      have : publishWithQueue conn ok now q topic payload isResponse =
          ((queueMessage now q topic payload isResponse).1,
           (queueMessage now q topic payload isResponse).2, []) := by
        unfold publishWithQueue
        rw [if_neg (by omega), if_neg (by rw [hc0]; simp)]
      rw [this]
      refine ⟨by simp [hc0], ?_, fun _ => hq _ rfl, fun h10 => hqlen h10⟩
      intro hko
      rw [hc0] at hko
      cases hko
  · intro conn ok now q topic payload isResponse hsize
    unfold publishWithQueue
    rw [if_pos (by omega)]

/-- Claim C7 fails as stated: a 975-character payload passes nothing — even
fully connected, no direct publish is attempted and nothing is queued. -/
theorem C7_oversized_counterexample :
    isMqttReallyConnected { connectedFlag := true, state := 0 } = true ∧
    publishWithQueue { connectedFlag := true, state := 0 } true 0 []
      ("t".toList) bigPayload false = (false, [], []) := by
  constructor
  · rfl
  · have hlen975 : bigPayload.length = 975 := by
      unfold bigPayload
      exact List.length_replicate _ _
    unfold publishWithQueue
    rw [if_pos (by rw [hlen975]; unfold MQTT_MAX_PACKET_SIZE; omega)]

theorem C7_publish_gate_and_queueing_witness :
    (publishWithQueue { connectedFlag := false, state := -1 } true 0 []
      ("t".toList) ("p".toList) false).2.1 =
      [{ topic := "t".toList, payload := "p".toList, timestamp := 0,
         retry_count := 0, is_response := false }] := by
  have h := (C7_publish_gate_and_queueing.1 { connectedFlag := false, state := -1 }
    true 0 [] ("t".toList) ("p".toList) false (by decide)).2.2.1
    (Or.inl (by decide))
  rw [h.1]
  decide


/-- Claim C8 (amended): each drain tick attempts at most 3 envelopes,
strictly in FIFO order (always the current head first); a failed attempt
bumps the head's `retryCount`, which drops it once the count passes the
ceiling of 3 — so an envelope entering with `retryCount = 0` is attempted
at most 4 times: it survives three failed attempts and is dropped at the
fourth. -/
theorem C8_drain_fifo_retry_ceiling :
    (∀ (conn : MqttConn) (w : Bool) (oks : List Bool) (q : List SimpleMessage),
      (updateOfflineQueue conn w oks q).2.length ≤ 3 ∧
      (updateOfflineQueue conn w oks q).2.map (fun a => (a.topic, a.payload)) =
        (q.take (updateOfflineQueue conn w oks q).2.length).map
          (fun m => (m.topic, m.payload)))
  ∧ (∀ (conn : MqttConn) (ok : Bool) (m : SimpleMessage)
       (rest : List SimpleMessage),
      isMqttReallyConnected conn = true →
      (processQueuedMessages conn ok (m :: rest)).2.2 =
        [{ topic := m.topic, payload := m.payload,
           retained := false, ok := ok }] ∧
      (ok = true → (processQueuedMessages conn ok (m :: rest)).2.1 = rest) ∧
      (ok = false → m.retry_count < 3 →
        (processQueuedMessages conn ok (m :: rest)).2.1 =
          { m with retry_count := m.retry_count + 1 } :: rest) ∧
      (ok = false → m.retry_count ≥ 3 →
        (processQueuedMessages conn ok (m :: rest)).2.1 = rest))
  ∧ (∀ (conn : MqttConn) (m : SimpleMessage) (rest : List SimpleMessage),
      isMqttReallyConnected conn = true → m.retry_count = 0 →
      (∀ j ≤ 3, (runTicks conn true (List.replicate j [false]) (m :: rest)).1 =
        { m with retry_count := j } :: rest) ∧
      (runTicks conn true (List.replicate 4 [false]) (m :: rest)).1 = rest) := by
  refine ⟨?_, ?_, ?_⟩
  · intro conn w oks q
    exact ⟨(updateOfflineQueue_attempts conn w oks q).1,
      (updateOfflineQueue_attempts conn w oks q).2.1⟩
  · intro conn ok m rest hc
    refine ⟨?_, ?_, ?_, ?_⟩
    · cases ok with
      | true => rw [pqm_success conn m rest hc]
      | false =>
        by_cases hr : m.retry_count < 3
        · rw [pqm_fail_keep conn m rest hc hr]
        · rw [pqm_fail_drop conn m rest hc (by omega)]
    · intro hok
      subst hok
      rw [pqm_success conn m rest hc]
    · intro hok hr
      subst hok
      rw [pqm_fail_keep conn m rest hc hr]
    · intro hok hr
      subst hok
      rw [pqm_fail_drop conn m rest hc hr]
  · intro conn m rest hc h0
    exact runTicks_four_strikes conn m rest hc h0

/-- Claim C8 fails as stated: after three failed attempts the envelope is
still queued with `retry_count = 3`, and the next connected tick attempts
it a fourth time — more than the claimed ceiling of 3 attempts. -/
theorem C8_fourth_attempt_counterexample :
    (runTicks { connectedFlag := true, state := 0 } true
        (List.replicate 3 [false]) [msgT]).1 =
      [{ msgT with retry_count := 3 }] ∧
    (updateOfflineQueue { connectedFlag := true, state := 0 } true [false]
        [{ msgT with retry_count := 3 }]).2.length = 1 ∧
    (updateOfflineQueue { connectedFlag := true, state := 0 } true [false]
        [{ msgT with retry_count := 3 }]).1 = [] := by
  refine ⟨rfl, rfl, rfl⟩

theorem C8_drain_fifo_retry_ceiling_witness :
    (runTicks { connectedFlag := true, state := 0 } true
        (List.replicate 4 [false]) [msgT]).1 = [] := by
  exact (C8_drain_fifo_retry_ceiling.2.2 { connectedFlag := true, state := 0 }
    msgT [] rfl rfl).2

/-- Claim C9 (amended): a direct publish sets the retained flag iff the
message is not a response, so responses are indeed never retained; but
every publish made when draining the offline queue — including queued
status/presence messages — is sent with `retained = false`. -/
theorem C9_retained_by_path :
    (∀ (conn : MqttConn) (ok : Bool) (now : Nat) (q : List SimpleMessage)
       (topic payload : List Char) (isResponse : Bool),
      ∀ a ∈ (publishWithQueue conn ok now q topic payload isResponse).2.2,
        a.retained = !isResponse)
  ∧ (∀ (conn : MqttConn) (ok : Bool) (q : List SimpleMessage),
      ∀ a ∈ (processQueuedMessages conn ok q).2.2, a.retained = false)
  ∧ (∀ (conn : MqttConn) (w : Bool) (oks : List Bool)
       (q : List SimpleMessage),
      ∀ a ∈ (updateOfflineQueue conn w oks q).2, a.retained = false) := by
  refine ⟨?_, ?_, ?_⟩
  · intro conn ok now q topic payload isResponse a ha
    unfold publishWithQueue at ha
    split at ha
    · cases ha
    · split at ha
      · split at ha
        · rcases List.mem_cons.mp ha with h1 | h1
          · rw [h1]
          · cases h1
        · rcases List.mem_cons.mp ha with h1 | h1
          · rw [h1]
          · cases h1
      · cases ha
  · intro conn ok q a ha
    by_cases hc : isMqttReallyConnected conn = true
    · cases q with
      | nil =>
        rw [show processQueuedMessages conn ok [] = (false, [], []) from by
          simp [processQueuedMessages]] at ha
        cases ha
      | cons m rest =>
        cases ok with
        | true =>
          rw [pqm_success conn m rest hc] at ha
          rcases List.mem_cons.mp ha with h1 | h1
          · rw [h1]
          · cases h1
        | false =>
          by_cases hr : m.retry_count < 3
          · rw [pqm_fail_keep conn m rest hc hr] at ha
            rcases List.mem_cons.mp ha with h1 | h1
            · rw [h1]
            · cases h1
          · rw [pqm_fail_drop conn m rest hc (by omega)] at ha
            rcases List.mem_cons.mp ha with h1 | h1
            · rw [h1]
            · cases h1
    · have hc0 : isMqttReallyConnected conn = false := by
        rcases Bool.eq_false_or_eq_true (isMqttReallyConnected conn) with hb | hb
        · exact absurd hb hc
        · exact hb
      rw [pqm_not_connected conn ok q hc0] at ha
      cases ha
  · intro conn w oks q a ha
    exact (updateOfflineQueue_attempts conn w oks q).2.2 a ha

/-- Claim C9 fails as stated: a status message (`isResponse = false`)
queued while disconnected is later drained with `retained = false`, not
retained. -/
theorem C9_drained_status_unretained_counterexample :
    msgT.is_response = false ∧
    (publishWithQueue { connectedFlag := false, state := -1 } true 0 []
      ("t".toList) ("p".toList) false).2.1 = [msgT] ∧
    (updateOfflineQueue { connectedFlag := true, state := 0 } true [true]
      [msgT]).2 =
      [{ topic := "t".toList, payload := "p".toList,
         retained := false, ok := true }] := by
  refine ⟨rfl, by decide, by decide⟩

theorem C9_retained_by_path_witness :
    ({ topic := "t".toList, payload := "p".toList, retained := false,
       ok := true } : MqttAttempt).retained = !true := by
  exact C9_retained_by_path.1 { connectedFlag := true, state := 0 } true 0 []
    ("t".toList) ("p".toList) true _ (by decide)

/-- Claim C10: a queued envelope stores at most the first 63 topic and 511
payload characters; consequently a payload longer than 511 characters that
still passes the 1024−50 pre-publish size check is queued truncated and any
later publish of that envelope sends the truncated payload, not the
original. -/
theorem C10_envelope_truncation :
    (∀ (now : Nat) (q : List SimpleMessage) (topic payload : List Char)
       (isResponse : Bool),
      (queueMessage now q topic payload isResponse).2.getLast? =
        some { topic := topic.take 63, payload := payload.take 511,
               timestamp := now, retry_count := 0, is_response := isResponse } ∧
      (topic.take 63).length ≤ 63 ∧ (payload.take 511).length ≤ 511)
  ∧ (∀ (conn : MqttConn) (now : Nat) (q : List SimpleMessage)
       (topic payload : List Char),
      isMqttReallyConnected conn = false →
      511 < payload.length → payload.length ≤ MQTT_MAX_PACKET_SIZE - 50 →
      (publishWithQueue conn true now q topic payload false).1 = true ∧
      (publishWithQueue conn true now q topic payload false).2.1.getLast? =
        some { topic := topic.take 63, payload := payload.take 511,
               timestamp := now, retry_count := 0, is_response := false } ∧
      payload.take 511 ≠ payload ∧
      (∀ (conn2 : MqttConn) (rest : List SimpleMessage),
        isMqttReallyConnected conn2 = true →
        (processQueuedMessages conn2 true
          ({ topic := topic.take 63, payload := payload.take 511,
             timestamp := now, retry_count := 0,
             is_response := false } :: rest)).2.2 =
          [{ topic := topic.take 63, payload := payload.take 511,
             retained := false, ok := true }])) := by
  have hlast : ∀ (now : Nat) (q : List SimpleMessage)
      (topic payload : List Char) (isResponse : Bool),
      (queueMessage now q topic payload isResponse).2.getLast? =
        some { topic := topic.take 63, payload := payload.take 511,
               timestamp := now, retry_count := 0,
               is_response := isResponse } := by
    intro now q topic payload isResponse
    show ((if q.length ≥ 10 then (q.drop 1).take 9 else q) ++ [_]).getLast? = _
    rw [List.getLast?_concat]
  constructor
  · intro now q topic payload isResponse
    refine ⟨hlast now q topic payload isResponse, ?_, ?_⟩
    · rw [List.length_take]
      exact Nat.min_le_left _ _
    · rw [List.length_take]
      exact Nat.min_le_left _ _
  · intro conn now q topic payload hc0 hlong hsize
    have hpub : publishWithQueue conn true now q topic payload false =
        ((queueMessage now q topic payload false).1,
         (queueMessage now q topic payload false).2, []) := by
      unfold publishWithQueue
      rw [if_neg (by omega), if_neg (by rw [hc0]; simp)]
    refine ⟨by rw [hpub]; rfl, ?_, ?_, ?_⟩
    · rw [hpub]
      exact hlast now q topic payload false
    · intro heq
      have := congrArg List.length heq
      rw [List.length_take] at this
      omega
    · intro conn2 rest hc2
      rw [pqm_success conn2 _ rest hc2]

theorem C10_envelope_truncation_witness :
    (publishWithQueue { connectedFlag := false, state := -1 } true 0 []
      ("t".toList) (List.replicate 600 'a') false).1 = true ∧
    (List.replicate 600 'a').take 511 ≠ List.replicate 600 'a' := by
  have h := C10_envelope_truncation.2 { connectedFlag := false, state := -1 }
    0 [] ("t".toList) (List.replicate 600 'a') rfl
    (by rw [List.length_replicate]; omega)
    (by rw [List.length_replicate]; unfold MQTT_MAX_PACKET_SIZE; omega)
  exact ⟨h.1, h.2.2.1⟩

end ConsultEase
